import Mathlib

/-!
Verification of the retrieval/caching layer of the `behind-bars-bot`
repository: a shallow embedding of the three retrieval adapters
(`KnowledgeBase` in `knowledge_base.py`, `Context7Search` in
`context7_tool.py`, `GitHubReadmeFetcher` in `github_readme_tool.py`)
together with proofs about caching, change detection, index (re)build,
deduplication, keyword fallback and snippet extraction.

Python strings are modelled as Lean `String` (a list of characters);
all Python string operations used by the code (`lower`, `find`, `count`,
`split`, `strip`, slicing) are re-implemented below with Python's
semantics.  Scores are modelled as `Rat` (the code only ever compares
scores, never does float arithmetic on them).  External capabilities
(HTTP, chunker, embedder, hybrid engine, query optimizer) are opaque
parameters collected in an `Env`; an embedding call that raises is
modelled by `Option`/a `raised` flag.  Side effects that the spec talks
about (network retrieval, index build, keyword scan) are recorded in an
explicit event trace.
-/

/-! ## Python string primitives -/

/-- Python whitespace characters (`str.split()` / `str.strip()`). -/
def pyWs (c : Char) : Bool :=
  c = ' ' || c = '\t' || c = '\n' || c = '\r' || c = '\x0b' || c = '\x0c'

/-- Does `hay` start with `needle` (character lists)? -/
def startsWithCL : List Char → List Char → Bool
  | [], _ => true
  | _ :: _, [] => false
  | a :: as, b :: bs => a = b && startsWithCL as bs

/-- First index of `needle` in `hay`, Python `str.find` semantics
(`find` of the empty string is `0`). -/
def findSubAux (needle : List Char) : List Char → Nat → Option Nat
  | hay, i =>
    if startsWithCL needle hay then some i
    else
      match hay with
      | [] => none
      | _ :: t => findSubAux needle t (i + 1)

/-- Non-overlapping occurrence count, Python `str.count` semantics for a
nonempty needle; `skip` characters are skipped after a match. -/
def countSubAux (needle : List Char) : List Char → Nat → Nat
  | [], _ => 0
  | _ :: t, Nat.succ k => countSubAux needle t k
  | c :: t, 0 =>
    if startsWithCL needle (c :: t) then 1 + countSubAux needle t (needle.length - 1)
    else countSubAux needle t 0

/-- Python `str.count` (non-overlapping; empty needle counts `len + 1`). -/
def countSub (needle hay : List Char) : Nat :=
  if needle = [] then hay.length + 1 else countSubAux needle hay 0

/-- Python `str.split("\n")` on character lists (`"" ↦ [""]`). -/
def splitNlAux : List Char → List Char → List (List Char)
  | [], acc => [acc.reverse]
  | c :: t, acc => if c = '\n' then acc.reverse :: splitNlAux t [] else splitNlAux t (c :: acc)

/-- Python `str.split()` (split on whitespace runs, dropping empties). -/
def splitWsAux : List Char → List Char → List (List Char)
  | [], acc => if acc = [] then [] else [acc.reverse]
  | c :: t, acc =>
    if pyWs c then
      if acc = [] then splitWsAux t [] else acc.reverse :: splitWsAux t []
    else splitWsAux t (c :: acc)

/-- Python `str.lower()` (modelled with `Char.toLower`). -/
def pyLower (s : String) : String := String.mk (s.data.map Char.toLower)

/-- Python `len`. -/
def pyLen (s : String) : Nat := s.data.length

/-- Python `hay.find(needle)` returning `none` for `-1`. -/
def pyFind (hay needle : String) : Option Nat := findSubAux needle.data hay.data 0

/-- Python `needle in hay` (substring test). -/
def pyContains (hay needle : String) : Bool := (pyFind hay needle).isSome

/-- Python `hay.count(needle)`. -/
def pyCount (hay needle : String) : Nat := countSub needle.data hay.data

/-- Python `s[:n]`. -/
def pyTake (s : String) (n : Nat) : String := String.mk (s.data.take n)

/-- Python `s.split("\n")`. -/
def pySplitNlS (s : String) : List String := (splitNlAux s.data []).map String.mk

/-- Python `s.split()`. -/
def pySplitWsS (s : String) : List String := (splitWsAux s.data []).map String.mk

/-- Python `s.strip()`. -/
def pyStripS (s : String) : String :=
  String.mk (((s.data.dropWhile pyWs).reverse.dropWhile pyWs).reverse)

/-- Python `"\n".join(ls)`. -/
def pyJoinNl : List String → String
  | [] => ""
  | [s] => s
  | s :: rest => s ++ "\n" ++ pyJoinNl rest

/-- Python `s.startswith("#")` (used on stripped heading lines). -/
def startsWithHash (s : String) : Bool :=
  match s.data with
  | [] => false
  | c :: _ => c = '#'

/-! ## Data model -/

/-- Embedding vector (opaque payload of the retrieval library). -/
abbrev Vec := List Rat

/-- Chunk metadata: the small fixed set of keys the adapters put into the
metadata dictionaries (`source`, `topic`, `type`, `path`, `document`).
The Python `"type"` key is called `mtype` here. -/
structure Meta where
  source : Option String
  topic : Option String
  mtype : Option String
  path : Option String
  document : Option String
deriving DecidableEq, Repr

/-- A `DocumentChunk` produced by the chunking capability. -/
structure Chunk where
  text : String
  chunk_id : String
  fingerprint : Option String
  meta : Meta
deriving DecidableEq, Repr

/-- A scored retrieval candidate (`RetrievalResult` of the RAG library). -/
structure RetrievalResult where
  chunk : Chunk
  score : Rat
deriving DecidableEq, Repr

/-- Result of `encode_documents`/`encode_queries`: the returned dictionary
may or may not carry `"dense"`/`"sparse"` entries. -/
structure EncodeOut where
  dense : Option (List Vec)
  sparse : Option (List Vec)
deriving DecidableEq, Repr

/-- `HybridSearchEngine`, kept as the value of everything handed to it:
its construction dimension and the batches passed to `add_documents`. -/
structure Engine where
  dimension : Nat
  batches : List (List Chunk × List Vec × Option (List Vec))
deriving DecidableEq, Repr

/-- `HybridSearchEngine(dimension=d)`. -/
def Engine.new (d : Nat) : Engine := { dimension := d, batches := [] }

/-- `engine.add_documents(chunks, dense_embeddings=…, sparse_embeddings=…)`. -/
def Engine.add_documents (e : Engine) (cs : List Chunk) (dv : List Vec)
    (sv : Option (List Vec)) : Engine :=
  { e with batches := e.batches ++ [(cs, dv, sv)] }

/-- One entry of an adapter's per-topic RAG index map
(`{"engine": …, "chunks": …, "ready": …}`). -/
structure RagIndex where
  engine : Engine
  chunks : List Chunk
  ready : Bool
deriving DecidableEq, Repr

/-- A formatted search-result dictionary returned by the adapters.  The
Python `"type"` key is called `rtype`; keyword results of the knowledge
base carry no `"metadata"` key, modelled by `metadata = none`. -/
structure SResult where
  path : String
  rtype : String
  snippet : String
  score : Rat
  full_content : String
  metadata : Option Meta
deriving DecidableEq, Repr

/-- A document of the local knowledge directory
(`{"path": …, "content": …, "type": …}`; `"type"` is `dtype`). -/
structure Doc where
  path : String
  content : String
  dtype : String
deriving DecidableEq, Repr

/-- Observable side effects recorded by the model: an HTTP retrieval, a
run of an index build body, or a keyword scan. -/
inductive Event where
  | netGet (key : String)
  | buildRun (key : String)
  | keywordScan (tag : String)
deriving DecidableEq, Repr

/-- The opaque external capabilities the adapters are composed with.
`net` models an HTTP GET (by cache key / URL; `none` is a transport
failure or unavailable client), `files` the knowledge directory listing,
`encode_documents` returns `none` when the embedding call raises. -/
structure Env where
  net : String → Option String
  files : List (String × String)
  chunk_document : String → Meta → List Chunk
  encode_documents : List String → Option EncodeOut
  encode_queries : List String → EncodeOut
  enhance_query : String → List String
  engine_search : Engine → String → Option Vec → Option Vec → Nat → Nat → List RetrievalResult

/-! ## Deduplication and ranking (`_deduplicate_results`, identical in all
three adapters) -/

/-- `chunk.fingerprint or chunk.chunk_id` (Python falsy `or`: `None` and
the empty string both fall back to the chunk id). -/
def fpKey (c : Chunk) : String :=
  match c.fingerprint with
  | none => c.chunk_id
  | some f => if f = "" then c.chunk_id else f

/-- `deduped[fingerprint] = result` on an insertion-ordered dictionary:
replace in place when the key is present and the new score is strictly
higher, otherwise append at the end. -/
def dedupUpd : List (String × RetrievalResult) → String → RetrievalResult →
    List (String × RetrievalResult)
  | [], k, r => [(k, r)]
  | (k', r') :: t, k, r =>
    if k' = k then
      (if r'.score < r.score then (k, r) :: t else (k', r') :: t)
    else (k', r') :: dedupUpd t k r

/-- The loop of `_deduplicate_results` over the candidate list. -/
def dedupFold (l : List RetrievalResult) : List (String × RetrievalResult) :=
  l.foldl (fun acc r => dedupUpd acc (fpKey r.chunk) r) []

/-- Stable insertion into a descending-sorted list: the new element goes
after every element whose key is `≥` its own (Python sort stability). -/
def insertScoreDesc (key : α → Rat) (r : α) : List α → List α
  | [] => [r]
  | x :: t => if key x < key r then r :: x :: t else x :: insertScoreDesc key r t

/-- `sorted(l, key=…, reverse=True)`: stable descending sort. -/
def sortScoreDesc (key : α → Rat) (l : List α) : List α :=
  l.foldl (fun acc r => insertScoreDesc key r acc) []

/-- `_deduplicate_results`: group by fingerprint keeping the best score,
then sort the kept values by score, descending. -/
def deduplicate_results (l : List RetrievalResult) : List RetrievalResult :=
  sortScoreDesc (fun r => r.score) ((dedupFold l).map Prod.snd)

/-! ## Snippet extraction (`_extract_snippet`, identical in all three
adapters) -/

/-- `_extract_snippet(content, query, context_lines)`: first
case-insensitive match of the whole query, `±context_lines` window of
lines around the matching line, first five lines when there is no match,
truncation to 500 characters plus `"..."` when the window is not shorter
than 500 characters. -/
def extract_snippet (content query : String) (context_lines : Nat) : String :=
  let content_lower := pyLower content
  let query_lower := pyLower query
  match pyFind content_lower query_lower with
  | none => pyJoinNl ((pySplitNlS content).take 5)
  | some idx =>
    let lines := pySplitNlS content
    let line_idx := pyCount (pyTake content idx) "\n"
    let start := line_idx - context_lines
    let stop := min lines.length (line_idx + context_lines + 1)
    let snippet := pyJoinNl ((lines.take stop).drop start)
    if pyLen snippet < 500 then snippet else pyTake snippet 500 ++ "..."

/-! ## The local-directory adapter (`KnowledgeBase`, `knowledge_base.py`) -/

namespace KnowledgeBase

/-- Mutable instance state of a `KnowledgeBase`. -/
structure State where
  use_embeddings : Bool
  index : List Doc
  initialized : Bool
  rag_ready : Bool
  building_index : Bool
  chunks : List Chunk
  search_engine : Option Engine
deriving DecidableEq, Repr

/-- State after `__init__(knowledge_path, use_embeddings, …)`. -/
def mkState (use_embeddings : Bool) : State :=
  { use_embeddings := use_embeddings, index := [], initialized := false,
    rag_ready := false, building_index := false, chunks := [], search_engine := none }

/-- The chunk list assembled by the loop at the top of `_build_rag_index`
(one `chunk_document` call per indexed document, metadata
`{"path": doc["path"], "type": doc.get("type", "markdown")}`). -/
def chunksOf (env : Env) (s : State) : List Chunk :=
  s.index.foldl
    (fun acc doc =>
      acc ++ env.chunk_document doc.content
        { source := none, topic := none, mtype := some doc.dtype,
          path := some doc.path, document := none }) []

/-- `_build_rag_index` (lines 146–179).  Returns the new state, the
emitted events, and whether the offloaded body raised (only the
embedding call can raise in the model).  On absent/empty dense vectors
it aborts and permanently sets `use_embeddings := false`. -/
def build_rag_index (env : Env) (s : State) : State × List Event × Bool :=
  if s.rag_ready || !s.use_embeddings then (s, [], false)
  else
    let ev := [Event.buildRun "knowledge"]
    let chunks := chunksOf env s
    if chunks = [] then (s, ev, false)
    else
      match env.encode_documents (chunks.map (fun c => c.text)) with
      | none => (s, ev, true)
      | some emb =>
        let dense_embeddings := emb.dense.getD []
        if dense_embeddings = [] then
          ({ s with use_embeddings := false }, ev, false)
        else
          let dimension := (dense_embeddings.headD []).length
          let engine0 :=
            match s.search_engine with
            | none => Engine.new dimension
            | some e => if e.dimension ≠ dimension then Engine.new dimension else e
          let engine := Engine.add_documents engine0 chunks dense_embeddings emb.sparse
          ({ s with chunks := chunks, search_engine := some engine, rag_ready := true },
           ev, false)

/-- `_ensure_rag_ready` (lines 135–144): single-flight guarded entry
point; the `finally` always clears the building flag, even when the
offloaded build raises. -/
def ensure_rag_ready (env : Env) (s : State) : State × List Event × Bool :=
  if !s.use_embeddings || s.rag_ready || s.building_index || s.index = [] then (s, [], false)
  else
    let s1 := { s with building_index := true }
    let r := build_rag_index env s1
    ({ r.1 with building_index := false }, r.2.1, r.2.2)

/-- `initialize` (lines 60–96; named `init` because of Lean naming
restrictions): load the directory listing, drop unreadable/empty files,
mark initialized, then ensure the index when embeddings are enabled. -/
def init (env : Env) (s : State) : State × List Event × Bool :=
  if s.initialized then (s, [], false)
  else
    let indexed := (env.files.filter (fun f => f.2 ≠ "")).map
      (fun f => ({ path := f.1, content := f.2, dtype := "markdown" } : Doc))
    let s1 := { s with index := indexed, initialized := true }
    if s1.use_embeddings then ensure_rag_ready env s1 else (s1, [], false)

/-- The per-document score of `_search_keyword` (lines 243–252). -/
def keyword_score (query_lower : String) (query_terms : List String) (doc : Doc) : Nat :=
  let content := pyLower doc.content
  let path := pyLower doc.path
  let s0 : Nat := if pyContains content query_lower then 10 else 0
  let s1 := s0 + (query_terms.map (fun term => pyCount content term)).sum
  let s2 := if query_terms.any (fun term => pyContains path term) then s1 + 5 else s1
  ((pySplitNlS doc.content).take 20).foldl
    (fun acc line =>
      if startsWithHash (pyStripS line) &&
          query_terms.any (fun term => pyContains (pyLower line) term)
      then acc + 3 else acc) s2

/-- The result dictionary appended by `_search_keyword` for a scoring
document (lines 255–264; no `"metadata"` key). -/
def keyword_entry (query_lower : String) (doc : Doc) (score : Nat) : SResult :=
  { path := doc.path, rtype := doc.dtype,
    snippet := extract_snippet doc.content query_lower 3,
    score := (score : Rat), full_content := pyTake doc.content 2000,
    metadata := none }

/-- `_search_keyword` (lines 234–267). -/
def search_keyword (query : String) (max_results : Nat) (s : State) : List SResult :=
  let query_lower := pyLower query
  let query_terms := pySplitWsS query_lower
  let results := s.index.foldl
    (fun acc doc =>
      let score := keyword_score query_lower query_terms doc
      if 0 < score then acc ++ [keyword_entry query_lower doc score] else acc) []
  (sortScoreDesc (fun r => r.score) results).take max_results

/-- `_format_result` (lines 221–232); `metadata.get("path") or
metadata.get("document") or chunk_id` with Python falsy `or`. -/
def format_result (r : RetrievalResult) (query : String) : SResult :=
  let md := r.chunk.meta
  let orFalsy : Option String → String → String := fun o d =>
    match o with
    | some v => if v = "" then d else v
    | none => d
  { path := orFalsy md.path (orFalsy md.document r.chunk.chunk_id),
    rtype := md.mtype.getD "markdown",
    snippet := extract_snippet r.chunk.text query 3,
    score := r.score, full_content := r.chunk.text, metadata := some md }

/-- `_rag_search` (lines 181–208): query variations, per-variation hybrid
search with over-fetch `max(25, max_results)`, aggregation,
deduplication, truncation, formatting. -/
def rag_search (env : Env) (query : String) (max_results : Nat) (s : State) : List SResult :=
  match s.search_engine with
  | none => []
  | some engine =>
    let variations := env.enhance_query query
    let search_k := max 25 max_results
    let aggregated := variations.foldl
      (fun acc variation =>
        let encoded := env.encode_queries [variation]
        let dense_vector := (encoded.dense.getD []).head?
        let sparse_vector := (encoded.sparse.getD []).head?
        acc ++ env.engine_search engine variation dense_vector sparse_vector
          search_k max_results) []
    let deduped := deduplicate_results aggregated
    let limited := deduped.take max_results
    limited.map (fun r => format_result r query)

/-- `search` (lines 107–133).  Rejects only empty/whitespace-only
queries; `.error` marks an exception escaping (a raising build is not
caught here). -/
def search (env : Env) (query : String) (max_results : Nat) (s : State) :
    Except Unit (List SResult) × State × List Event :=
  if query = "" ∨ pyStripS query = "" then (.ok [], s, [])
  else
    let ri := init env s
    if ri.2.2 then (.error (), ri.1, ri.2.1)
    else
      let s1 := ri.1
      let ev1 := ri.2.1
      if s1.index = [] then (.ok [], s1, ev1)
      else if !s1.use_embeddings then
        (.ok (search_keyword query max_results s1), s1, ev1 ++ [Event.keywordScan "knowledge"])
      else
        let er := ensure_rag_ready env s1
        if er.2.2 then (.error (), er.1, ev1 ++ er.2.1)
        else
          let s2 := er.1
          let ev2 := er.2.1
          if !s2.rag_ready || s2.search_engine.isNone then
            (.ok (search_keyword query max_results s2), s2,
             ev1 ++ ev2 ++ [Event.keywordScan "knowledge"])
          else
            let rag_results := rag_search env query max_results s2
            if rag_results = [] then
              (.ok (search_keyword query max_results s2), s2,
               ev1 ++ ev2 ++ [Event.keywordScan "knowledge"])
            else (.ok rag_results, s2, ev1 ++ ev2)

end KnowledgeBase

/-! ## The remote-proxy adapter (`Context7Search`, `context7_tool.py`) -/

namespace Context7Search

/-- Mutable instance state of a `Context7Search` (maps are total
functions from keys). -/
structure State where
  cache : String → Option String
  cache_enabled : Bool
  rag_indices : String → Option RagIndex
  building_index : String → Bool

/-- State after `__init__`. -/
def mkState : State :=
  { cache := fun _ => none, cache_enabled := true,
    rag_indices := fun _ => none, building_index := fun _ => false }

/-- `f"context7:{topic or 'default'}:{tokens}"`. -/
def cache_key (topic : Option String) (tokens : Nat) : String :=
  "context7:" ++ topic.getD "default" ++ ":" ++ toString tokens

/-- `"ready"` flag of the stored index for a topic key
(`self._rag_indices[topic_key].get("ready", False)`, `False` when the
key is absent). -/
def readyAt (s : State) (topic_key : String) : Bool :=
  match s.rag_indices topic_key with
  | some ri => ri.ready
  | none => false

/-- `_build_rag_index` (lines 194–240): chunk, embed, always create
a fresh engine, store `{engine, chunks, ready := true}` under the topic
key.  The third component records whether the embedding call raised. -/
def build_rag_index (env : Env) (content : String) (topic_key : String) (s : State) :
    State × List Event × Bool :=
  if content = "" then (s, [], false)
  else
    let ev := [Event.buildRun topic_key]
    let meta : Meta :=
      { source := some "context7", topic := some topic_key,
        mtype := some "documentation", path := none, document := none }
    let chunks := env.chunk_document content meta
    if chunks = [] then (s, ev, false)
    else
      match env.encode_documents (chunks.map (fun c => c.text)) with
      | none => (s, ev, true)
      | some emb =>
        let dense_embeddings := emb.dense.getD []
        if dense_embeddings = [] then (s, ev, false)
        else
          let dimension := (dense_embeddings.headD []).length
          let engine := Engine.add_documents (Engine.new dimension) chunks
            dense_embeddings emb.sparse
          ({ s with rag_indices := fun k =>
              if k = topic_key then
                some { engine := engine, chunks := chunks, ready := true }
              else s.rag_indices k },
           ev, false)

/-- `_ensure_rag_ready` (lines 182–192): per-topic single-flight flag
around the offloaded build, cleared in `finally`. -/
def ensure_rag_ready (env : Env) (content : String) (topic_key : String) (s : State) :
    State × List Event × Bool :=
  if s.building_index topic_key then (s, [], false)
  else
    let s1 := { s with building_index := fun k =>
      if k = topic_key then true else s.building_index k }
    let r := build_rag_index env content topic_key s1
    ({ r.1 with building_index := fun k =>
        if k = topic_key then false else r.1.building_index k },
     r.2.1, r.2.2)

/-- `fetch` (lines 68–137): cache hit returns the cached text
unconditionally; otherwise HTTP GET, change detection against the
previous cache value, cache write, conditional `_ensure_rag_ready`.  A
transport failure or an exception escaping the build is caught and
yields the empty string. -/
def fetch (env : Env) (topic : Option String) (tokens : Nat) (use_cache : Bool) (s : State) :
    String × State × List Event :=
  let ck := cache_key topic tokens
  if use_cache && s.cache_enabled && (s.cache ck).isSome then
    ((s.cache ck).getD "", s, [])
  else
    match env.net ck with
    | none => ("", s, [Event.netGet ck])
    | some content =>
      let s1 :=
        if s.cache_enabled then
          { s with cache := fun k => if k = ck then some content else s.cache k }
        else s
      let topic_key := topic.getD "default"
      if s.cache ck ≠ some content ∨ readyAt s1 topic_key = false then
        let r := ensure_rag_ready env content topic_key s1
        if r.2.2 then ("", r.1, Event.netGet ck :: r.2.1)
        else (content, r.1, Event.netGet ck :: r.2.1)
      else (content, s1, [Event.netGet ck])

/-- `_search_keyword` (lines 300–324): the whole fetched document is the
single candidate; `max_results` is not used. -/
def search_keyword (query content : String) (max_results : Nat) : List SResult :=
  let query_lower := pyLower query
  let query_terms := pySplitWsS query_lower
  let content_lower := pyLower content
  let score : Nat :=
    (if pyContains content_lower query_lower then 10 else 0)
    + (query_terms.map (fun term => pyCount content_lower term)).sum
  if 0 < score then
    [{ path := "Context7", rtype := "documentation",
       snippet := extract_snippet content query_lower 3,
       score := (score : Rat), full_content := pyTake content 2000,
       metadata := some { source := some "context7", topic := none, mtype := none,
                          path := none, document := none } }]
  else []

/-- `_format_result` (lines 287–298). -/
def format_result (r : RetrievalResult) (query topic_key : String) : SResult :=
  let md := r.chunk.meta
  { path := md.topic.getD topic_key, rtype := md.mtype.getD "documentation",
    snippet := extract_snippet r.chunk.text query 3,
    score := r.score, full_content := r.chunk.text, metadata := some md }

/-- `_rag_search` (lines 242–273). -/
def rag_search (env : Env) (query topic_key : String) (max_results : Nat) (s : State) :
    List SResult :=
  match s.rag_indices topic_key with
  | none => []
  | some ri =>
    let variations := env.enhance_query query
    let search_k := max 25 max_results
    let aggregated := variations.foldl
      (fun acc variation =>
        let encoded := env.encode_queries [variation]
        let dense_vector := (encoded.dense.getD []).head?
        let sparse_vector := (encoded.sparse.getD []).head?
        acc ++ env.engine_search ri.engine variation dense_vector sparse_vector
          search_k max_results) []
    let deduped := deduplicate_results aggregated
    let limited := deduped.take max_results
    limited.map (fun r => format_result r query topic_key)

/-- `search` (lines 139–180): guard on trimmed length `< 2`, fetch,
unconditional `_ensure_rag_ready` (not inside a `try`), keyword fallback
when the index is not ready. -/
def search (env : Env) (query : String) (topic : Option String) (tokens : Nat)
    (max_results : Nat) (use_cache : Bool) (s : State) :
    Except Unit (List SResult) × State × List Event :=
  if query = "" ∨ pyLen (pyStripS query) < 2 then (.ok [], s, [])
  else
    let fr := fetch env topic tokens use_cache s
    let content := fr.1
    let s1 := fr.2.1
    let ev1 := fr.2.2
    if content = "" then (.ok [], s1, ev1)
    else
      let topic_key := topic.getD "default"
      let er := ensure_rag_ready env content topic_key s1
      if er.2.2 then (.error (), er.1, ev1 ++ er.2.1)
      else
        let s2 := er.1
        let ev := ev1 ++ er.2.1
        if readyAt s2 topic_key = false then
          (.ok (search_keyword query content max_results), s2,
           ev ++ [Event.keywordScan "context7"])
        else
          (.ok (rag_search env query topic_key max_results s2), s2, ev)

end Context7Search

/-! ## The remote-file adapter (`GitHubReadmeFetcher`,
`github_readme_tool.py`) -/

namespace GitHubReadmeFetcher

/-- The fixed README URL (module constant `GITHUB_README_URL`). -/
def GITHUB_README_URL : String :=
  "https://raw.githubusercontent.com/SirTidez/Behind-Bars/refs/heads/master/README.md"

/-- Mutable instance state of a `GitHubReadmeFetcher`. -/
structure State where
  cache : Option String
  cache_enabled : Bool
  rag_ready : Bool
  building_index : Bool
  chunks : List Chunk
  search_engine : Option Engine
deriving DecidableEq, Repr

/-- State after `__init__`. -/
def mkState : State :=
  { cache := none, cache_enabled := true, rag_ready := false,
    building_index := false, chunks := [], search_engine := none }

/-- `_build_rag_index` (lines 163–205): always recreates the engine. -/
def build_rag_index (env : Env) (content : String) (s : State) :
    State × List Event × Bool :=
  if content = "" then (s, [], false)
  else
    let ev := [Event.buildRun "github"]
    let meta : Meta :=
      { source := some "github", topic := none, mtype := some "readme",
        path := some "README.md", document := none }
    let chunks := env.chunk_document content meta
    if chunks = [] then (s, ev, false)
    else
      match env.encode_documents (chunks.map (fun c => c.text)) with
      | none => (s, ev, true)
      | some emb =>
        let dense_embeddings := emb.dense.getD []
        if dense_embeddings = [] then (s, ev, false)
        else
          let dimension := (dense_embeddings.headD []).length
          let engine := Engine.add_documents (Engine.new dimension) chunks
            dense_embeddings emb.sparse
          ({ s with chunks := chunks, search_engine := some engine, rag_ready := true },
           ev, false)

/-- `_ensure_rag_ready` (lines 151–161): only the building flag guards
entry; the `finally` always clears it. -/
def ensure_rag_ready (env : Env) (content : String) (s : State) :
    State × List Event × Bool :=
  if s.building_index then (s, [], false)
  else
    let s1 := { s with building_index := true }
    let r := build_rag_index env content s1
    ({ r.1 with building_index := false }, r.2.1, r.2.2)

/-- `fetch_readme` (lines 69–118). -/
def fetch_readme (env : Env) (use_cache : Bool) (s : State) :
    String × State × List Event :=
  if use_cache && s.cache_enabled && s.cache.isSome then
    (s.cache.getD "", s, [])
  else
    match env.net GITHUB_README_URL with
    | none => ("", s, [Event.netGet GITHUB_README_URL])
    | some content =>
      let s1 := if s.cache_enabled then { s with cache := some content } else s
      if s.cache ≠ some content ∨ s1.rag_ready = false then
        let r := ensure_rag_ready env content s1
        if r.2.2 then ("", r.1, Event.netGet GITHUB_README_URL :: r.2.1)
        else (content, r.1, Event.netGet GITHUB_README_URL :: r.2.1)
      else (content, s1, [Event.netGet GITHUB_README_URL])

/-- `_search_keyword` (lines 263–287): single whole-document candidate;
`max_results` is not used. -/
def search_keyword (query content : String) (max_results : Nat) : List SResult :=
  let query_lower := pyLower query
  let query_terms := pySplitWsS query_lower
  let content_lower := pyLower content
  let score : Nat :=
    (if pyContains content_lower query_lower then 10 else 0)
    + (query_terms.map (fun term => pyCount content_lower term)).sum
  if 0 < score then
    [{ path := "README.md", rtype := "readme",
       snippet := extract_snippet content query_lower 3,
       score := (score : Rat), full_content := pyTake content 2000,
       metadata := some { source := some "github", topic := none, mtype := none,
                          path := none, document := none } }]
  else []

/-- `_format_result` (lines 250–261). -/
def format_result (r : RetrievalResult) (query : String) : SResult :=
  let md := r.chunk.meta
  { path := md.path.getD "README.md", rtype := md.mtype.getD "readme",
    snippet := extract_snippet r.chunk.text query 3,
    score := r.score, full_content := r.chunk.text, metadata := some md }

/-- `_rag_search` (lines 207–236). -/
def rag_search (env : Env) (query : String) (max_results : Nat) (s : State) :
    List SResult :=
  match s.search_engine with
  | none => []
  | some engine =>
    let variations := env.enhance_query query
    let search_k := max 25 max_results
    let aggregated := variations.foldl
      (fun acc variation =>
        let encoded := env.encode_queries [variation]
        let dense_vector := (encoded.dense.getD []).head?
        let sparse_vector := (encoded.sparse.getD []).head?
        acc ++ env.engine_search engine variation dense_vector sparse_vector
          search_k max_results) []
    let deduped := deduplicate_results aggregated
    let limited := deduped.take max_results
    limited.map (fun r => format_result r query)

/-- `search` (lines 120–149): rejects only empty/whitespace-only queries,
fetches the README, then unconditionally ensures the index. -/
def search (env : Env) (query : String) (max_results : Nat) (s : State) :
    Except Unit (List SResult) × State × List Event :=
  if query = "" ∨ pyStripS query = "" then (.ok [], s, [])
  else
    let fr := fetch_readme env true s
    let content := fr.1
    let s1 := fr.2.1
    let ev1 := fr.2.2
    if content = "" then (.ok [], s1, ev1)
    else
      let er := ensure_rag_ready env content s1
      if er.2.2 then (.error (), er.1, ev1 ++ er.2.1)
      else
        let s2 := er.1
        let ev := ev1 ++ er.2.1
        if !s2.rag_ready || s2.search_engine.isNone then
          (.ok (search_keyword query content max_results), s2,
           ev ++ [Event.keywordScan "github"])
        else
          (.ok (rag_search env query max_results s2), s2, ev)

end GitHubReadmeFetcher

/-! ## Lemmas about the stable descending sort -/

theorem mem_insertScoreDesc (key : α → Rat) (r a : α) (l : List α) :
    a ∈ insertScoreDesc key r l ↔ a = r ∨ a ∈ l := by
  induction l with
  | nil => simp [insertScoreDesc]
  | cons x t ih =>
    simp only [insertScoreDesc]
    split
    · simp [List.mem_cons]
    · simp [List.mem_cons, ih]
      tauto

theorem perm_insertScoreDesc (key : α → Rat) (r : α) (l : List α) :
    List.Perm (insertScoreDesc key r l) (r :: l) := by
  induction l with
  | nil => simp [insertScoreDesc]
  | cons x t ih =>
    simp only [insertScoreDesc]
    split
    · exact List.Perm.refl _
    · exact (ih.cons x).trans (List.Perm.swap r x t)

theorem pairwise_insertScoreDesc (key : α → Rat) (r : α) (l : List α)
    (h : l.Pairwise (fun a b => key b ≤ key a)) :
    (insertScoreDesc key r l).Pairwise (fun a b => key b ≤ key a) := by
  induction l with
  | nil => simp [insertScoreDesc]
  | cons x t ih =>
    rcases List.pairwise_cons.1 h with ⟨hx, ht⟩
    simp only [insertScoreDesc]
    split
    · next hlt =>
      refine List.pairwise_cons.2 ⟨?_, h⟩
      intro b hb
      rcases List.mem_cons.1 hb with rfl | hbt
      · exact le_of_lt hlt
      · exact (hx b hbt).trans (le_of_lt hlt)
    · next hge =>
      refine List.pairwise_cons.2 ⟨?_, ih ht⟩
      intro b hb
      rcases (mem_insertScoreDesc key r b t).1 hb with rfl | hbt
      · exact not_lt.1 hge
      · exact hx b hbt

theorem sortScoreDesc_pairwise (key : α → Rat) (l : List α) :
    (sortScoreDesc key l).Pairwise (fun a b => key b ≤ key a) := by
  suffices h : ∀ (l acc : List α), acc.Pairwise (fun a b => key b ≤ key a) →
      (List.foldl (fun acc r => insertScoreDesc key r acc) acc l).Pairwise
        (fun a b => key b ≤ key a) by
    exact h l [] (by simp)
  intro l
  induction l with
  | nil => exact fun acc h => h
  | cons r t ih =>
    intro acc hacc
    exact ih _ (pairwise_insertScoreDesc key r acc hacc)

theorem sortScoreDesc_perm (key : α → Rat) (l : List α) :
    List.Perm (sortScoreDesc key l) l := by
  suffices h : ∀ (l acc : List α),
      List.Perm (List.foldl (fun acc r => insertScoreDesc key r acc) acc l) (l ++ acc) by
    simpa using h l []
  intro l
  induction l with
  | nil => intro acc; simp
  | cons r t ih =>
    intro acc
    refine (ih (insertScoreDesc key r acc)).trans ?_
    refine List.Perm.trans (List.Perm.append_left t (perm_insertScoreDesc key r acc)) ?_
    exact List.perm_middle

theorem mem_sortScoreDesc (key : α → Rat) (l : List α) (a : α) :
    a ∈ sortScoreDesc key l ↔ a ∈ l :=
  (sortScoreDesc_perm key l).mem_iff

/-! ## Lemmas about the deduplication dictionary -/

theorem dedupUpd_subset (acc : List (String × RetrievalResult)) (k : String)
    (r : RetrievalResult) (p : String × RetrievalResult)
    (hp : p ∈ dedupUpd acc k r) : p ∈ acc ∨ p = (k, r) := by
  induction acc with
  | nil => simp_all [dedupUpd]
  | cons q t ih =>
    obtain ⟨k', r'⟩ := q
    simp only [dedupUpd] at hp
    by_cases hk : k' = k
    · rw [if_pos hk] at hp
      split at hp
      · rcases List.mem_cons.1 hp with rfl | hmem
        · exact Or.inr rfl
        · exact Or.inl (List.mem_cons_of_mem _ hmem)
      · exact Or.inl hp
    · rw [if_neg hk] at hp
      rcases List.mem_cons.1 hp with rfl | hmem
      · exact Or.inl (List.mem_cons_self _ _)
      · rcases ih hmem with h | h
        · exact Or.inl (List.mem_cons_of_mem _ h)
        · exact Or.inr h

theorem dedupUpd_keys (acc : List (String × RetrievalResult)) (k : String)
    (r : RetrievalResult) :
    (dedupUpd acc k r).map Prod.fst =
      if k ∈ acc.map Prod.fst then acc.map Prod.fst else acc.map Prod.fst ++ [k] := by
  induction acc with
  | nil => simp [dedupUpd]
  | cons q t ih =>
    obtain ⟨k', r'⟩ := q
    simp only [dedupUpd]
    by_cases hk : k' = k
    · subst hk
      rw [if_pos rfl]
      split <;> simp
    · rw [if_neg hk]
      by_cases hmem : k ∈ t.map Prod.fst
      · simp [ih, hmem, Ne.symm hk]
      · simp [ih, hmem, Ne.symm hk, hk]

theorem dedupUpd_keys_nodup (acc : List (String × RetrievalResult)) (k : String)
    (r : RetrievalResult) (h : (acc.map Prod.fst).Nodup) :
    ((dedupUpd acc k r).map Prod.fst).Nodup := by
  rw [dedupUpd_keys]
  split
  · exact h
  · next hnot =>
    exact List.nodup_append.2 ⟨h, List.nodup_singleton k,
      by intro a ha hb; simp at hb; subst hb; exact hnot ha⟩

theorem dedupUpd_cases (acc : List (String × RetrievalResult)) (k : String)
    (r : RetrievalResult) (hnd : (acc.map Prod.fst).Nodup)
    (p : String × RetrievalResult) (hp : p ∈ dedupUpd acc k r) :
    (p ∈ acc ∧ (p.1 = k → r.score ≤ p.2.score))
    ∨ (p = (k, r) ∧ ∀ q ∈ acc, q.1 = k → q.2.score < r.score) := by
  induction acc with
  | nil =>
    simp only [dedupUpd] at hp
    rcases List.mem_cons.1 hp with rfl | h
    · exact Or.inr ⟨rfl, by simp⟩
    · simp at h
  | cons q t ih =>
    obtain ⟨k', r'⟩ := q
    have hk'nin : k' ∉ t.map Prod.fst := (List.nodup_cons.1 hnd).1
    have hndt : (t.map Prod.fst).Nodup := (List.nodup_cons.1 hnd).2
    simp only [dedupUpd] at hp
    by_cases hk : k' = k
    · subst hk
      rw [if_pos rfl] at hp
      split at hp
      · next hlt =>
        rcases List.mem_cons.1 hp with rfl | hmem
        · refine Or.inr ⟨rfl, ?_⟩
          intro q hq hq1
          rcases List.mem_cons.1 hq with rfl | hqt
          · exact hlt
          · exact absurd (hq1 ▸ List.mem_map_of_mem Prod.fst hqt) hk'nin
        · refine Or.inl ⟨List.mem_cons_of_mem _ hmem, ?_⟩
          intro hpk
          exact absurd (hpk ▸ List.mem_map_of_mem Prod.fst hmem) hk'nin
      · next hge =>
        rcases List.mem_cons.1 hp with rfl | hmem
        · exact Or.inl ⟨List.mem_cons_self _ _, fun _ => not_lt.1 hge⟩
        · refine Or.inl ⟨List.mem_cons_of_mem _ hmem, ?_⟩
          intro hpk
          exact absurd (hpk ▸ List.mem_map_of_mem Prod.fst hmem) hk'nin
    · rw [if_neg hk] at hp
      rcases List.mem_cons.1 hp with rfl | hmem
      · exact Or.inl ⟨List.mem_cons_self _ _, fun hpk => absurd hpk hk⟩
      · rcases ih hndt hmem with ⟨hin, himp⟩ | ⟨heq, hall⟩
        · exact Or.inl ⟨List.mem_cons_of_mem _ hin, himp⟩
        · refine Or.inr ⟨heq, ?_⟩
          intro q hq hq1
          rcases List.mem_cons.1 hq with rfl | hqt
          · exact absurd hq1 hk
          · exact hall q hqt hq1

/-- The invariant maintained by the deduplication loop over the already
processed candidates `seen`. -/
def DedupInv (seen : List RetrievalResult)
    (acc : List (String × RetrievalResult)) : Prop :=
  (acc.map Prod.fst).Nodup
  ∧ (∀ p ∈ acc, fpKey p.2.chunk = p.1 ∧ p.2 ∈ seen)
  ∧ (∀ p ∈ acc, ∀ r ∈ seen, fpKey r.chunk = p.1 → r.score ≤ p.2.score)
  ∧ (∀ r ∈ seen, ∃ p ∈ acc, p.1 = fpKey r.chunk)

theorem dedupInv_step (seen : List RetrievalResult)
    (acc : List (String × RetrievalResult)) (r : RetrievalResult)
    (h : DedupInv seen acc) :
    DedupInv (seen ++ [r]) (dedupUpd acc (fpKey r.chunk) r) := by
  obtain ⟨hnd, hwk, hdom, hpres⟩ := h
  refine ⟨dedupUpd_keys_nodup acc _ r hnd, ?_, ?_, ?_⟩
  · intro p hp
    rcases dedupUpd_subset acc _ r p hp with hin | rfl
    · exact ⟨(hwk p hin).1, List.mem_append_left _ (hwk p hin).2⟩
    · exact ⟨rfl, List.mem_append_right _ (List.mem_singleton_self r)⟩
  · intro p hp r' hr' hkey
    rcases dedupUpd_cases acc _ r hnd p hp with ⟨hin, himp⟩ | ⟨rfl, hall⟩
    · rcases List.mem_append.1 hr' with hseen | hr
      · exact hdom p hin r' hseen hkey
      · have : r' = r := List.mem_singleton.1 hr
        subst this
        exact himp hkey.symm
    · rcases List.mem_append.1 hr' with hseen | hr
      · rcases hpres r' hseen with ⟨q, hq, hq1⟩
        have hq1' : q.1 = fpKey r.chunk := by
          simpa [hkey] using hq1
        exact le_of_lt (lt_of_le_of_lt (hdom q hq r' hseen (hkey.trans hq1'.symm))
          (hall q hq hq1'))
      · have : r' = r := List.mem_singleton.1 hr
        subst this
        exact le_refl _
  · intro r' hr'
    have hkeys := dedupUpd_keys acc (fpKey r.chunk) r
    rcases List.mem_append.1 hr' with hseen | hr
    · rcases hpres r' hseen with ⟨q, hq, hq1⟩
      have : q.1 ∈ (dedupUpd acc (fpKey r.chunk) r).map Prod.fst := by
        rw [hkeys]
        split
        · exact List.mem_map_of_mem Prod.fst hq
        · exact List.mem_append_left _ (List.mem_map_of_mem Prod.fst hq)
      rcases List.mem_map.1 this with ⟨p, hp, hp1⟩
      exact ⟨p, hp, hp1.trans hq1⟩
    · have hrr : r' = r := List.mem_singleton.1 hr
      rw [hrr]
      have : fpKey r.chunk ∈ (dedupUpd acc (fpKey r.chunk) r).map Prod.fst := by
        rw [hkeys]
        split
        · assumption
        · exact List.mem_append_right _ (List.mem_singleton_self _)
      rcases List.mem_map.1 this with ⟨p, hp, hp1⟩
      exact ⟨p, hp, hp1⟩

theorem dedupFold_inv (l : List RetrievalResult) : DedupInv l (dedupFold l) := by
  suffices h : ∀ (rest seen : List RetrievalResult)
      (acc : List (String × RetrievalResult)), DedupInv seen acc →
      DedupInv (seen ++ rest)
        (rest.foldl (fun acc r => dedupUpd acc (fpKey r.chunk) r) acc) by
    simpa using h l [] [] ⟨List.nodup_nil, by simp, by simp, by simp⟩
  intro rest
  induction rest with
  | nil => intro seen acc h; simpa using h
  | cons r t ih =>
    intro seen acc h
    have := ih (seen ++ [r]) _ (dedupInv_step seen acc r h)
    simpa using this

/-! ## Claim C2: deduplication and ranking -/

/-- **C2** — For every finite list of scored candidates,
`_deduplicate_results` returns a list in which (1) no two results share
an identical fingerprint (the chunk id substituting for an absent
fingerprint), (2) every adjacent pair is ordered by non-increasing
score, and (3) of two same-fingerprint candidates with different scores
only the higher-scoring one can appear, while some representative of
that fingerprint with at least the higher score does appear. -/
theorem deduplicate_results_spec (l : List RetrievalResult) :
    (deduplicate_results l).Pairwise (fun a b => fpKey a.chunk ≠ fpKey b.chunk)
    ∧ List.Chain' (fun a b : RetrievalResult => b.score ≤ a.score) (deduplicate_results l)
    ∧ ∀ r1 ∈ l, ∀ r2 ∈ l, fpKey r1.chunk = fpKey r2.chunk → r1.score < r2.score →
        r1 ∉ deduplicate_results l
        ∧ ∃ p ∈ deduplicate_results l,
            fpKey p.chunk = fpKey r1.chunk ∧ r2.score ≤ p.score := by
  obtain ⟨hnd, hwk, hdom, hpres⟩ := dedupFold_inv l
  have hperm := sortScoreDesc_perm (fun r : RetrievalResult => r.score)
    ((dedupFold l).map Prod.snd)
  refine ⟨?_, ?_, ?_⟩
  · have h2 : (dedupFold l).Pairwise (fun p q => p.1 ≠ q.1) :=
      (List.pairwise_map).1 hnd
    have h3 : (dedupFold l).Pairwise
        (fun p q => fpKey p.2.chunk ≠ fpKey q.2.chunk) := by
      refine h2.imp_of_mem ?_
      intro p q hp hq hne
      rw [(hwk p hp).1, (hwk q hq).1]
      exact hne
    have h4 : ((dedupFold l).map Prod.snd).Pairwise
        (fun a b => fpKey a.chunk ≠ fpKey b.chunk) := (List.pairwise_map).2 h3
    exact (hperm.pairwise_iff (fun h => h.symm)).2 h4
  · exact (sortScoreDesc_pairwise _ _).chain'
  · intro r1 h1 r2 h2 hkey hlt
    constructor
    · intro hmem
      have hmem' : r1 ∈ (dedupFold l).map Prod.snd :=
        (mem_sortScoreDesc _ _ _).1 hmem
      rcases List.mem_map.1 hmem' with ⟨p, hp, hp2⟩
      have hk : fpKey r1.chunk = p.1 := by
        rw [← hp2]; exact (hwk p hp).1
      have hle := hdom p hp r2 h2 (hkey.symm.trans hk)
      rw [hp2] at hle
      exact absurd hle (not_le.2 hlt)
    · rcases hpres r2 h2 with ⟨p, hp, hp1⟩
      refine ⟨p.2, ?_, ?_, ?_⟩
      · exact (mem_sortScoreDesc _ _ _).2 (List.mem_map_of_mem Prod.snd hp)
      · rw [(hwk p hp).1, hp1]
        exact hkey.symm
      · exact hdom p hp r2 h2 hp1.symm

/-- The empty metadata dictionary (used in concrete test states). -/
def metaEmpty : Meta :=
  { source := none, topic := none, mtype := none, path := none, document := none }

/-- Two candidates sharing fingerprint `"fp-1"` with scores `1 < 2`. -/
def rLow : RetrievalResult :=
  { chunk := { text := "alpha", chunk_id := "id-a", fingerprint := some "fp-1",
               meta := metaEmpty }, score := 1 }

/-- The higher-scoring candidate with the same fingerprint as `rLow`. -/
def rHigh : RetrievalResult :=
  { chunk := { text := "beta", chunk_id := "id-b", fingerprint := some "fp-1",
               meta := metaEmpty }, score := 2 }

/-- Witness for C2 at a concrete candidate list. -/
theorem deduplicate_results_spec_witness :
    rLow ∉ deduplicate_results [rLow, rHigh]
    ∧ ∃ p ∈ deduplicate_results [rLow, rHigh],
        fpKey p.chunk = fpKey rLow.chunk ∧ rHigh.score ≤ p.score :=
  (deduplicate_results_spec [rLow, rHigh]).2.2 rLow (by decide) rHigh (by decide)
    (by decide) (by decide)

/-! ## Claim C4: snippet extraction -/

/-- The spec's fallback snippet (§4.6): the first five lines of the text. -/
def specFirstFive (content : String) : String :=
  pyJoinNl ((pySplitNlS content).take 5)

/-- The spec's match window (§4.6): up to three lines before and three
lines after the line containing the first match at character index
`idx`. -/
def specWindow (content : String) (idx : Nat) : String :=
  let lines := pySplitNlS content
  let line_idx := pyCount (pyTake content idx) "\n"
  pyJoinNl ((lines.take (min lines.length (line_idx + 3 + 1))).drop (line_idx - 3))

set_option maxRecDepth 100000 in
/-- **C4 counterexample** — the claim says a window of 500 characters or
fewer is returned verbatim; the code (`if len(snippet) < 500`) truncates
a window of exactly 500 characters and appends `"..."`. -/
theorem extract_snippet_boundary_500 :
    pyFind (pyLower (String.mk (List.replicate 500 'a'))) (pyLower "a") = some 0
    ∧ pyLen (specWindow (String.mk (List.replicate 500 'a')) 0) = 500
    ∧ extract_snippet (String.mk (List.replicate 500 'a')) "a" 3
        ≠ specWindow (String.mk (List.replicate 500 'a')) 0
    ∧ extract_snippet (String.mk (List.replicate 500 'a')) "a" 3
        = pyTake (specWindow (String.mk (List.replicate 500 'a')) 0) 500 ++ "..." := by
  refine ⟨by decide, by decide, ?_, by decide⟩
  intro h
  have hlen := congrArg pyLen h
  revert hlen
  decide

/-- **C4 (amended)** — snippet extraction returns the first five lines
when the full query has no case-insensitive match; otherwise the
`±3`-line window around the first matching line, verbatim when the
window is *strictly shorter* than 500 characters, and truncated to 500
characters with `"..."` appended when it has 500 characters *or more*
(the original claim drew the boundary at "500 or fewer verbatim"). -/
theorem extract_snippet_amended (content query : String) :
    (pyFind (pyLower content) (pyLower query) = none →
       extract_snippet content query 3 = specFirstFive content)
    ∧ ∀ idx, pyFind (pyLower content) (pyLower query) = some idx →
        (pyLen (specWindow content idx) < 500 →
           extract_snippet content query 3 = specWindow content idx)
        ∧ (500 ≤ pyLen (specWindow content idx) →
           extract_snippet content query 3
             = pyTake (specWindow content idx) 500 ++ "...") := by
  refine ⟨?_, ?_⟩
  · intro h
    simp only [extract_snippet, specFirstFive, h]
  · intro idx h
    refine ⟨?_, ?_⟩
    · intro hlen
      simp only [specWindow] at hlen
      simp only [extract_snippet, specWindow, h]
      exact if_pos hlen
    · intro hge
      simp only [specWindow] at hge
      simp only [extract_snippet, specWindow, h]
      exact if_neg (not_lt.2 hge)

/-- Witness for the amended C4 at a concrete matching content. -/
theorem extract_snippet_amended_witness :
    extract_snippet "line1\nline2 parole here\nline3" "parole" 3 =
      specWindow "line1\nline2 parole here\nline3" 12 :=
  ((extract_snippet_amended "line1\nline2 parole here\nline3" "parole").2 12
    (by decide)).1 (by decide)

/-! ## Concrete environments and states for witnesses -/

/-- A trivial environment: failing network, no files, empty chunker. -/
def trivEnv : Env :=
  { net := fun _ => none, files := [],
    chunk_document := fun _ _ => [],
    encode_documents := fun _ => some { dense := none, sparse := none },
    encode_queries := fun _ => { dense := none, sparse := none },
    enhance_query := fun q => [q],
    engine_search := fun _ _ _ _ _ _ => [] }

/-- An environment whose embedding call raises (`encode_documents`
returns `none`), with a fixed remote document `"docs"`. -/
def envRaise : Env :=
  { net := fun _ => some "docs", files := [],
    chunk_document := fun content meta =>
      [{ text := content, chunk_id := "c1", fingerprint := none, meta := meta }],
    encode_documents := fun _ => none,
    encode_queries := fun _ => { dense := none, sparse := none },
    enhance_query := fun q => [q],
    engine_search := fun _ _ _ _ _ _ => [] }

/-- A healthy environment: fixed remote document, one chunk per document,
one-dimensional dense embeddings. -/
def envGood : Env :=
  { net := fun _ => some "documentation text", files := [],
    chunk_document := fun content meta =>
      [{ text := content, chunk_id := "c1", fingerprint := none, meta := meta }],
    encode_documents := fun _ => some { dense := some [[1]], sparse := none },
    encode_queries := fun _ => { dense := none, sparse := none },
    enhance_query := fun q => [q],
    engine_search := fun _ _ _ _ _ _ => [] }

/-- An initialized knowledge base with a single document and embeddings
disabled. -/
def sAppleKB : KnowledgeBase.State :=
  { use_embeddings := false,
    index := [{ path := "apple.md", content := "apple", dtype := "markdown" }],
    initialized := true, rag_ready := false, building_index := false,
    chunks := [], search_engine := none }

/-! ## Claim C3: short-query rejection -/

/-- **C3 counterexample** — a one-character query (trimmed length `1 <
2`) passed to `KnowledgeBase.search` is *not* rejected: a keyword scan
runs and a non-empty result list is returned, contradicting the claim
that every adapter returns an empty result for queries shorter than two
characters. -/
theorem short_query_knowledge_search_not_empty :
    pyLen (pyStripS "a") < 2
    ∧ (KnowledgeBase.search trivEnv "a" 5 sAppleKB).1.toOption
        = some [{ path := "apple.md", rtype := "markdown", snippet := "apple",
                  score := (16 : Rat), full_content := "apple", metadata := none }]
    ∧ Event.keywordScan "knowledge" ∈ (KnowledgeBase.search trivEnv "a" 5 sAppleKB).2.2 := by
  refine ⟨by decide, by decide, by decide⟩

/-- **C3 (amended)** — only the remote-proxy (Context7) adapter rejects
queries whose trimmed length is below two characters; the knowledge-base
and GitHub adapters reject only empty or whitespace-only queries (the
two-character gate for them lives in the bot tool handlers).  In every
rejected case the adapter returns an empty result list, leaves its state
unchanged and performs no fetch, index build or keyword scan. -/
theorem short_query_guard_amended
    (env : Env) (q : String) (topic : Option String) (tokens max_results : Nat)
    (use_cache : Bool) (s7 : Context7Search.State)
    (sGH : GitHubReadmeFetcher.State) (sKB : KnowledgeBase.State) :
    (pyLen (pyStripS q) < 2 →
       Context7Search.search env q topic tokens max_results use_cache s7
         = (.ok [], s7, []))
    ∧ (pyStripS q = "" →
       GitHubReadmeFetcher.search env q max_results sGH = (.ok [], sGH, []))
    ∧ (pyStripS q = "" →
       KnowledgeBase.search env q max_results sKB = (.ok [], sKB, [])) := by
  refine ⟨?_, ?_, ?_⟩
  · intro h
    unfold Context7Search.search
    rw [if_pos (Or.inr h)]
  · intro h
    unfold GitHubReadmeFetcher.search
    rw [if_pos (Or.inr h)]
  · intro h
    unfold KnowledgeBase.search
    rw [if_pos (Or.inr h)]

/-- Witness for the amended C3 at concrete short queries. -/
theorem short_query_guard_amended_witness :
    Context7Search.search trivEnv "x" none 10000 5 true Context7Search.mkState
      = (.ok [], Context7Search.mkState, [])
    ∧ GitHubReadmeFetcher.search trivEnv " " 5 GitHubReadmeFetcher.mkState
      = (.ok [], GitHubReadmeFetcher.mkState, [])
    ∧ KnowledgeBase.search trivEnv " " 5 (KnowledgeBase.mkState true)
      = (.ok [], KnowledgeBase.mkState true, []) :=
  ⟨(short_query_guard_amended trivEnv "x" none 10000 5 true Context7Search.mkState
      GitHubReadmeFetcher.mkState (KnowledgeBase.mkState true)).1 (by decide),
   (short_query_guard_amended trivEnv " " none 10000 5 true Context7Search.mkState
      GitHubReadmeFetcher.mkState (KnowledgeBase.mkState true)).2.1 (by decide),
   (short_query_guard_amended trivEnv " " none 10000 5 true Context7Search.mkState
      GitHubReadmeFetcher.mkState (KnowledgeBase.mkState true)).2.2 (by decide)⟩

/-! ## Claim C5: fetch caching -/

/-- A cache hit in `Context7Search.fetch` returns the cached text
unconditionally, with no state change and no events. -/
theorem c7_fetch_hit (env : Env) (topic : Option String) (tokens : Nat)
    (s : Context7Search.State) (t : String)
    (hen : s.cache_enabled = true)
    (hc : s.cache (Context7Search.cache_key topic tokens) = some t) :
    Context7Search.fetch env topic tokens true s = (t, s, []) := by
  simp only [Context7Search.fetch]
  rw [hc]
  simp [hen]

/-- A cache hit in `GitHubReadmeFetcher.fetch_readme` returns the cached
text unconditionally, with no state change and no events. -/
theorem gh_fetch_hit (env : Env) (sg : GitHubReadmeFetcher.State) (tg : String)
    (hen : sg.cache_enabled = true) (hc : sg.cache = some tg) :
    GitHubReadmeFetcher.fetch_readme env true sg = (tg, sg, []) := by
  simp only [GitHubReadmeFetcher.fetch_readme]
  rw [hc]
  simp [hen]

/-- `Context7Search.build_rag_index` never touches the cache or the
cache-enabled flag. -/
theorem c7_build_cache_frame (env : Env) (content topic_key : String)
    (s : Context7Search.State) :
    (Context7Search.build_rag_index env content topic_key s).1.cache = s.cache
    ∧ (Context7Search.build_rag_index env content topic_key s).1.cache_enabled
        = s.cache_enabled := by
  simp only [Context7Search.build_rag_index]
  split
  · exact ⟨rfl, rfl⟩
  · split
    · exact ⟨rfl, rfl⟩
    · split
      · exact ⟨rfl, rfl⟩
      · split
        · exact ⟨rfl, rfl⟩
        · exact ⟨rfl, rfl⟩

/-- `Context7Search.ensure_rag_ready` never touches the cache or the
cache-enabled flag. -/
theorem c7_ensure_cache_frame (env : Env) (content topic_key : String)
    (s : Context7Search.State) :
    (Context7Search.ensure_rag_ready env content topic_key s).1.cache = s.cache
    ∧ (Context7Search.ensure_rag_ready env content topic_key s).1.cache_enabled
        = s.cache_enabled := by
  simp only [Context7Search.ensure_rag_ready]
  split
  · exact ⟨rfl, rfl⟩
  · exact ⟨(c7_build_cache_frame env content topic_key _).1,
           (c7_build_cache_frame env content topic_key _).2⟩

/-- When the embedding call cannot raise, `Context7Search`'s build never
reports an exception. -/
theorem c7_build_noraise (env : Env) (content topic_key : String)
    (s : Context7Search.State) (h : ∀ ts, env.encode_documents ts ≠ none) :
    (Context7Search.build_rag_index env content topic_key s).2.2 = false := by
  simp only [Context7Search.build_rag_index]
  split
  · rfl
  · split
    · rfl
    · split
      · next heq => exact absurd heq (h _)
      · split
        · rfl
        · rfl

/-- When the embedding call cannot raise, `Context7Search`'s ensure never
reports an exception. -/
theorem c7_ensure_noraise (env : Env) (content topic_key : String)
    (s : Context7Search.State) (h : ∀ ts, env.encode_documents ts ≠ none) :
    (Context7Search.ensure_rag_ready env content topic_key s).2.2 = false := by
  simp only [Context7Search.ensure_rag_ready]
  split
  · rfl
  · exact c7_build_noraise env content topic_key _ h

/-- `GitHubReadmeFetcher.build_rag_index` never touches the cache or the
cache-enabled flag. -/
theorem gh_build_cache_frame (env : Env) (content : String)
    (s : GitHubReadmeFetcher.State) :
    (GitHubReadmeFetcher.build_rag_index env content s).1.cache = s.cache
    ∧ (GitHubReadmeFetcher.build_rag_index env content s).1.cache_enabled
        = s.cache_enabled := by
  simp only [GitHubReadmeFetcher.build_rag_index]
  split
  · exact ⟨rfl, rfl⟩
  · split
    · exact ⟨rfl, rfl⟩
    · split
      · exact ⟨rfl, rfl⟩
      · split
        · exact ⟨rfl, rfl⟩
        · exact ⟨rfl, rfl⟩

/-- `GitHubReadmeFetcher.ensure_rag_ready` never touches the cache or the
cache-enabled flag. -/
theorem gh_ensure_cache_frame (env : Env) (content : String)
    (s : GitHubReadmeFetcher.State) :
    (GitHubReadmeFetcher.ensure_rag_ready env content s).1.cache = s.cache
    ∧ (GitHubReadmeFetcher.ensure_rag_ready env content s).1.cache_enabled
        = s.cache_enabled := by
  simp only [GitHubReadmeFetcher.ensure_rag_ready]
  split
  · exact ⟨rfl, rfl⟩
  · exact ⟨(gh_build_cache_frame env content _).1,
           (gh_build_cache_frame env content _).2⟩

/-- When the embedding call cannot raise, `GitHubReadmeFetcher`'s build
never reports an exception. -/
theorem gh_build_noraise (env : Env) (content : String)
    (s : GitHubReadmeFetcher.State) (h : ∀ ts, env.encode_documents ts ≠ none) :
    (GitHubReadmeFetcher.build_rag_index env content s).2.2 = false := by
  simp only [GitHubReadmeFetcher.build_rag_index]
  split
  · rfl
  · split
    · rfl
    · split
      · next heq => exact absurd heq (h _)
      · split
        · rfl
        · rfl

/-- When the embedding call cannot raise, `GitHubReadmeFetcher`'s ensure
never reports an exception. -/
theorem gh_ensure_noraise (env : Env) (content : String)
    (s : GitHubReadmeFetcher.State) (h : ∀ ts, env.encode_documents ts ≠ none) :
    (GitHubReadmeFetcher.ensure_rag_ready env content s).2.2 = false := by
  simp only [GitHubReadmeFetcher.ensure_rag_ready]
  split
  · rfl
  · exact gh_build_noraise env content _ h

/-- **C5 counterexample** — with caching enabled and an unchanged
underlying document, two consecutive `fetch` calls can return different
text: when the index build triggered by the first call raises, the first
call returns the empty string (the exception is caught inside `fetch`
*after* the fetched text was cached), so the second call returns the
cached text `"docs"`. -/
theorem fetch_twice_differs_when_build_raises :
    (Context7Search.fetch envRaise none 10000 true Context7Search.mkState).1 = ""
    ∧ (Context7Search.fetch envRaise none 10000 true
        (Context7Search.fetch envRaise none 10000 true Context7Search.mkState).2.1).1
        = "docs"
    ∧ (Context7Search.fetch envRaise none 10000 true
        (Context7Search.fetch envRaise none 10000 true Context7Search.mkState).2.1).2.2
        = [] := by
  refine ⟨by decide, by decide, by decide⟩

/-- **C5 (amended)** — a cache hit returns the cached text
unconditionally (no retrieval, no state change, no time-based check);
and if the first fetch's retrieval succeeds *and the triggered index
build does not raise*, a second fetch with caching enabled returns the
same text as the first and performs no underlying retrieval.  (The
no-raise proviso is forced by the counterexample: a raising build makes
the first call return the empty string while still caching the fetched
text.) -/
theorem fetch_cache_amended (env : Env) (topic : Option String) (tokens : Nat)
    (s : Context7Search.State) (t : String)
    (sg : GitHubReadmeFetcher.State) (tg : String) :
    (s.cache_enabled = true → s.cache (Context7Search.cache_key topic tokens) = some t →
       Context7Search.fetch env topic tokens true s = (t, s, []))
    ∧ (sg.cache_enabled = true → sg.cache = some tg →
       GitHubReadmeFetcher.fetch_readme env true sg = (tg, sg, []))
    ∧ (∀ c, env.net (Context7Search.cache_key topic tokens) = some c →
        s.cache (Context7Search.cache_key topic tokens) = none →
        s.cache_enabled = true →
        (∀ ts, env.encode_documents ts ≠ none) →
        (Context7Search.fetch env topic tokens true s).1 = c
        ∧ Context7Search.fetch env topic tokens true
            (Context7Search.fetch env topic tokens true s).2.1
          = (c, (Context7Search.fetch env topic tokens true s).2.1, []))
    ∧ (∀ c, env.net GitHubReadmeFetcher.GITHUB_README_URL = some c →
        sg.cache = none → sg.cache_enabled = true →
        (∀ ts, env.encode_documents ts ≠ none) →
        (GitHubReadmeFetcher.fetch_readme env true sg).1 = c
        ∧ GitHubReadmeFetcher.fetch_readme env true
            (GitHubReadmeFetcher.fetch_readme env true sg).2.1
          = (c, (GitHubReadmeFetcher.fetch_readme env true sg).2.1, [])) := by
  refine ⟨fun hen hc => c7_fetch_hit env topic tokens s t hen hc,
          fun hen hc => gh_fetch_hit env sg tg hen hc, ?_, ?_⟩
  · intro c hnet hmiss hen hnr
    have hrun : (Context7Search.fetch env topic tokens true s).1 = c
        ∧ (Context7Search.fetch env topic tokens true s).2.1.cache
            (Context7Search.cache_key topic tokens) = some c
        ∧ (Context7Search.fetch env topic tokens true s).2.1.cache_enabled = true := by
      simp only [Context7Search.fetch]
      rw [hmiss, hnet]
      simp only [hen, Option.isSome_none, Bool.and_false, Bool.false_eq_true, if_false,
        eq_self_iff_true, if_true]
      rw [if_pos (Or.inl (show (none : Option String) ≠ some c from
        fun h => Option.noConfusion h))]
      split
      · next hraise =>
        rw [c7_ensure_noraise env c _ _ hnr] at hraise
        exact absurd hraise (by simp)
      · refine ⟨rfl, ?_, ?_⟩
        · rw [(c7_ensure_cache_frame env c _ _).1]
          simp [hen]
        · rw [(c7_ensure_cache_frame env c _ _).2]
    exact ⟨hrun.1, c7_fetch_hit env topic tokens _ c hrun.2.2 hrun.2.1⟩
  · intro c hnet hmiss hen hnr
    have hrun : (GitHubReadmeFetcher.fetch_readme env true sg).1 = c
        ∧ (GitHubReadmeFetcher.fetch_readme env true sg).2.1.cache = some c
        ∧ (GitHubReadmeFetcher.fetch_readme env true sg).2.1.cache_enabled = true := by
      simp only [GitHubReadmeFetcher.fetch_readme]
      rw [hmiss, hnet]
      simp only [hen, Option.isSome_none, Bool.and_false, Bool.false_eq_true, if_false,
        eq_self_iff_true, if_true]
      rw [if_pos (Or.inl (show (none : Option String) ≠ some c from
        fun h => Option.noConfusion h))]
      split
      · next hraise =>
        rw [gh_ensure_noraise env c _ hnr] at hraise
        exact absurd hraise (by simp)
      · refine ⟨rfl, ?_, ?_⟩
        · rw [(gh_ensure_cache_frame env c _).1]
        · rw [(gh_ensure_cache_frame env c _).2]
    exact ⟨hrun.1, gh_fetch_hit env _ c hrun.2.2 hrun.2.1⟩

/-- Witness for the amended C5: a concrete double fetch under a healthy
environment returns the remote document twice, the second time with an
empty event trace. -/
theorem fetch_cache_amended_witness :
    (Context7Search.fetch envGood none 10000 true Context7Search.mkState).1
      = "documentation text"
    ∧ Context7Search.fetch envGood none 10000 true
        (Context7Search.fetch envGood none 10000 true Context7Search.mkState).2.1
      = ("documentation text",
         (Context7Search.fetch envGood none 10000 true Context7Search.mkState).2.1, []) :=
  (fetch_cache_amended envGood none 10000 Context7Search.mkState ""
      GitHubReadmeFetcher.mkState "").2.2.1 "documentation text" rfl rfl rfl
    (fun ts h => by simp [envGood] at h)

/-! ## Claim C1: rebuild trigger -/

/-- First fetch: cache miss, index built. -/
def c1Fetch1 : String × Context7Search.State × List Event :=
  Context7Search.fetch envGood none 10000 true Context7Search.mkState

/-- Second fetch for the same key: byte-identical cached text. -/
def c1Fetch2 : String × Context7Search.State × List Event :=
  Context7Search.fetch envGood none 10000 true c1Fetch1.2.1

/-- A search run after the second fetch. -/
def c1Search : Except Unit (List SResult) × Context7Search.State × List Event :=
  Context7Search.search envGood "jail cells" none 10000 5 true c1Fetch2.2.1

/-- **C1 counterexample** — after a first fetch has built the index and a
second fetch returned byte-identical text (no build event, index still
ready), a subsequent `search` nevertheless runs the index-build body
again (a `buildRun` event occurs), because `Context7Search.search`
invokes `_ensure_rag_ready` unconditionally and that routine has no
ready-check.  This contradicts the claim that no rebuild occurs in this
situation. -/
theorem context7_unchanged_search_rebuilds :
    c1Fetch2.1 = c1Fetch1.1
    ∧ c1Fetch2.2.2 = []
    ∧ Context7Search.readyAt c1Fetch2.2.1 "default" = true
    ∧ Event.buildRun "default" ∈ c1Search.2.2 := by
  refine ⟨by decide, by decide, by decide, by decide⟩

/-- The build body of `Context7Search` emits exactly one `buildRun` event
whenever the content is non-empty. -/
theorem c7_build_events (env : Env) (content topic_key : String)
    (s : Context7Search.State) (hc : content ≠ "") :
    (Context7Search.build_rag_index env content topic_key s).2.1
      = [Event.buildRun topic_key] := by
  simp only [Context7Search.build_rag_index]
  rw [if_neg hc]
  split
  · rfl
  · split
    · rfl
    · split
      · rfl
      · rfl

/-- `Context7Search.ensure_rag_ready` with a clear building flag and
non-empty content always runs the build body once. -/
theorem c7_ensure_events (env : Env) (content topic_key : String)
    (s : Context7Search.State) (hb : s.building_index topic_key = false)
    (hc : content ≠ "") :
    (Context7Search.ensure_rag_ready env content topic_key s).2.1
      = [Event.buildRun topic_key] := by
  simp only [Context7Search.ensure_rag_ready]
  rw [if_neg (by simp [hb])]
  exact c7_build_events env content topic_key _ hc

/-- The build body of `GitHubReadmeFetcher` emits exactly one `buildRun`
event whenever the content is non-empty. -/
theorem gh_build_events (env : Env) (content : String)
    (s : GitHubReadmeFetcher.State) (hc : content ≠ "") :
    (GitHubReadmeFetcher.build_rag_index env content s).2.1
      = [Event.buildRun "github"] := by
  simp only [GitHubReadmeFetcher.build_rag_index]
  rw [if_neg hc]
  split
  · rfl
  · split
    · rfl
    · split
      · rfl
      · rfl

/-- `GitHubReadmeFetcher.ensure_rag_ready` with a clear building flag and
non-empty content always runs the build body once. -/
theorem gh_ensure_events (env : Env) (content : String)
    (s : GitHubReadmeFetcher.State) (hb : s.building_index = false)
    (hc : content ≠ "") :
    (GitHubReadmeFetcher.ensure_rag_ready env content s).2.1
      = [Event.buildRun "github"] := by
  simp only [GitHubReadmeFetcher.ensure_rag_ready]
  rw [if_neg (by simp [hb])]
  exact gh_build_events env content _ hc

/-- **C1 (amended)** — within `fetch`/`fetch_readme`, the conditional
rebuild trigger is as the claim says for both remote adapters: a
re-fetch returning byte-identical text while a ready index exists emits
no build and leaves the stored index untouched.  `search`, however,
invokes the build routine unconditionally after every successful fetch
in both remote adapters, and their `_ensure_rag_ready` has no
ready-check, so even a search whose fetch was a byte-identical cache hit
with a ready index runs the index-build body again (re-chunking and
re-embedding the unchanged content). -/
theorem context7_rebuild_trigger_amended (env : Env) (topic : Option String)
    (tokens max_results : Nat) (s : Context7Search.State) (c : String)
    (ri : RagIndex) (q : String) (sg : GitHubReadmeFetcher.State) :
    (env.net (Context7Search.cache_key topic tokens) = some c →
     s.cache (Context7Search.cache_key topic tokens) = some c →
     s.rag_indices (topic.getD "default") = some ri → ri.ready = true →
     (Context7Search.fetch env topic tokens false s).1 = c
     ∧ (Context7Search.fetch env topic tokens false s).2.1.rag_indices
         = s.rag_indices
     ∧ (Context7Search.fetch env topic tokens false s).2.2
         = [Event.netGet (Context7Search.cache_key topic tokens)])
    ∧ (s.cache_enabled = true →
       s.cache (Context7Search.cache_key topic tokens) = some c → c ≠ "" →
       s.building_index (topic.getD "default") = false →
       q ≠ "" → ¬ pyLen (pyStripS q) < 2 →
       Event.buildRun (topic.getD "default")
         ∈ (Context7Search.search env q topic tokens max_results true s).2.2)
    ∧ (env.net GitHubReadmeFetcher.GITHUB_README_URL = some c →
       sg.cache = some c → sg.rag_ready = true →
       (GitHubReadmeFetcher.fetch_readme env false sg).1 = c
       ∧ (GitHubReadmeFetcher.fetch_readme env false sg).2.1.rag_ready = sg.rag_ready
       ∧ (GitHubReadmeFetcher.fetch_readme env false sg).2.1.search_engine
           = sg.search_engine
       ∧ (GitHubReadmeFetcher.fetch_readme env false sg).2.2
           = [Event.netGet GitHubReadmeFetcher.GITHUB_README_URL])
    ∧ (sg.cache_enabled = true → sg.cache = some c → c ≠ "" →
       sg.building_index = false → q ≠ "" → pyStripS q ≠ "" →
       Event.buildRun "github"
         ∈ (GitHubReadmeFetcher.search env q max_results sg).2.2) := by
  refine ⟨?_, ?_, ?_, ?_⟩
  · intro hnet hc hri hready
    simp only [Context7Search.fetch]
    rw [hnet, hc]
    simp only [Bool.false_and, Bool.false_eq_true, if_false]
    have hcond : ¬(some c ≠ some c
        ∨ Context7Search.readyAt
            (if s.cache_enabled = true then
              { s with cache := fun k =>
                  if k = Context7Search.cache_key topic tokens then some c
                  else s.cache k }
             else s) (topic.getD "default") = false) := by
      rintro (h | h)
      · exact h rfl
      · cases hce : s.cache_enabled
        · simp only [hce, Bool.false_eq_true, if_false] at h
          rw [Context7Search.readyAt, hri] at h
          simp [hready] at h
        · simp only [hce, eq_self_iff_true, if_true] at h
          rw [Context7Search.readyAt] at h
          simp only at h
          rw [hri] at h
          simp [hready] at h
    rw [if_neg hcond]
    cases hce : s.cache_enabled
    · simp only [hce, Bool.false_eq_true, if_false]
      exact ⟨by trivial, by trivial, by trivial⟩
    · simp only [hce, eq_self_iff_true, if_true]
      exact ⟨by trivial, by trivial, by trivial⟩
  · intro hen hc hcne hbf hq hlen
    simp only [Context7Search.search]
    rw [if_neg (by rintro (h | h); exact hq h; exact hlen h)]
    rw [c7_fetch_hit env topic tokens s c hen hc]
    dsimp only
    rw [if_neg hcne]
    split
    · rw [c7_ensure_events env c _ s hbf hcne]
      simp
    · split
      · rw [c7_ensure_events env c _ s hbf hcne]
        simp
      · rw [c7_ensure_events env c _ s hbf hcne]
        simp
  · intro hnet hc hready
    simp only [GitHubReadmeFetcher.fetch_readme]
    rw [hnet, hc]
    simp only [Bool.false_and, Bool.false_eq_true, if_false]
    have hcond : ¬(some c ≠ some c
        ∨ (if sg.cache_enabled = true then
            { sg with cache := some c } else sg).rag_ready = false) := by
      rintro (h | h)
      · exact h rfl
      · cases hce : sg.cache_enabled
        · simp only [hce, Bool.false_eq_true, if_false] at h
          have h2 : sg.rag_ready = false := h
          rw [hready] at h2
          exact Bool.noConfusion h2
        · simp only [hce, eq_self_iff_true, if_true] at h
          have h2 : sg.rag_ready = false := h
          rw [hready] at h2
          exact Bool.noConfusion h2
    rw [if_neg hcond]
    cases hce : sg.cache_enabled
    · simp only [hce, Bool.false_eq_true, if_false]
      exact ⟨by trivial, by trivial, by trivial, by trivial⟩
    · simp only [hce, eq_self_iff_true, if_true]
      exact ⟨by trivial, by trivial, by trivial, by trivial⟩
  · intro hen hc hcne hbf hq hqe
    simp only [GitHubReadmeFetcher.search]
    rw [if_neg (by rintro (h | h); exact hq h; exact hqe h)]
    rw [gh_fetch_hit env sg c hen hc]
    dsimp only
    rw [if_neg hcne]
    split
    · rw [gh_ensure_events env c sg hbf hcne]
      simp
    · split
      · rw [gh_ensure_events env c sg hbf hcne]
        simp
      · rw [gh_ensure_events env c sg hbf hcne]
        simp

/-- The state after the first fetch of the C1 scenario: cached content
and a ready index. -/
def c1ReadyState : Context7Search.State := c1Fetch1.2.1

/-- The chunk stored by the build in the C1 scenario. -/
def c1Chunk : Chunk :=
  { text := "documentation text", chunk_id := "c1", fingerprint := none,
    meta := { source := some "context7", topic := some "default",
              mtype := some "documentation", path := none, document := none } }

/-- The index entry stored by the build in the C1 scenario. -/
def c1Ri : RagIndex :=
  { engine := { dimension := 1, batches := [([c1Chunk], [[1]], none)] },
    chunks := [c1Chunk], ready := true }

/-- The GitHub adapter's state after a first fetch under `envGood`:
cached README text and a ready index. -/
def ghReadyState : GitHubReadmeFetcher.State :=
  (GitHubReadmeFetcher.fetch_readme envGood true GitHubReadmeFetcher.mkState).2.1

/-- Witness for the amended C1 at the concrete scenario states of both
remote adapters. -/
theorem context7_rebuild_trigger_amended_witness :
    ((Context7Search.fetch envGood none 10000 false c1ReadyState).1
        = "documentation text"
     ∧ (Context7Search.fetch envGood none 10000 false c1ReadyState).2.1.rag_indices
         = c1ReadyState.rag_indices
     ∧ (Context7Search.fetch envGood none 10000 false c1ReadyState).2.2
         = [Event.netGet (Context7Search.cache_key none 10000)])
    ∧ Event.buildRun (Option.getD none "default")
        ∈ (Context7Search.search envGood "jail cells" none 10000 5 true
            c1ReadyState).2.2
    ∧ ((GitHubReadmeFetcher.fetch_readme envGood false ghReadyState).1
        = "documentation text"
     ∧ (GitHubReadmeFetcher.fetch_readme envGood false ghReadyState).2.1.rag_ready
         = ghReadyState.rag_ready
     ∧ (GitHubReadmeFetcher.fetch_readme envGood false ghReadyState).2.1.search_engine
         = ghReadyState.search_engine
     ∧ (GitHubReadmeFetcher.fetch_readme envGood false ghReadyState).2.2
         = [Event.netGet GitHubReadmeFetcher.GITHUB_README_URL])
    ∧ Event.buildRun "github"
        ∈ (GitHubReadmeFetcher.search envGood "jail cells" 5 ghReadyState).2.2 :=
  ⟨(context7_rebuild_trigger_amended envGood none 10000 5 c1ReadyState
      "documentation text" c1Ri "jail cells" ghReadyState).1 rfl (by decide)
      (by decide) (by decide),
   (context7_rebuild_trigger_amended envGood none 10000 5 c1ReadyState
      "documentation text" c1Ri "jail cells" ghReadyState).2.1 (by decide)
      (by decide) (by decide) (by decide) (by decide) (by decide),
   (context7_rebuild_trigger_amended envGood none 10000 5 c1ReadyState
      "documentation text" c1Ri "jail cells" ghReadyState).2.2.1 rfl (by decide)
      (by decide),
   (context7_rebuild_trigger_amended envGood none 10000 5 c1ReadyState
      "documentation text" c1Ri "jail cells" ghReadyState).2.2.2 (by decide)
      (by decide) (by decide) (by decide) (by decide) (by decide)⟩

/-! ## Claim C9: single-flight build entry points -/

/-- **C9** — the index-build entry points of all three adapters are
single-flight: a call made while the (per-key) building flag is set
returns immediately with an unchanged state, no events and no exception,
without starting a second build; and a call entered with a clear flag
always leaves the flag clear again, both when the offloaded build
completes and when it raises (the environment, including a raising
embedder, is universally quantified). -/
theorem single_flight_spec (env : Env) (content topic_key : String)
    (s : Context7Search.State) (sg : GitHubReadmeFetcher.State)
    (sKB : KnowledgeBase.State) :
    (s.building_index topic_key = true →
       Context7Search.ensure_rag_ready env content topic_key s = (s, [], false))
    ∧ (s.building_index topic_key = false →
       (Context7Search.ensure_rag_ready env content topic_key s).1.building_index
         topic_key = false)
    ∧ (sg.building_index = true →
       GitHubReadmeFetcher.ensure_rag_ready env content sg = (sg, [], false))
    ∧ (sg.building_index = false →
       (GitHubReadmeFetcher.ensure_rag_ready env content sg).1.building_index
         = false)
    ∧ (sKB.building_index = true →
       KnowledgeBase.ensure_rag_ready env sKB = (sKB, [], false))
    ∧ (sKB.building_index = false →
       (KnowledgeBase.ensure_rag_ready env sKB).1.building_index = false) := by
  refine ⟨?_, ?_, ?_, ?_, ?_, ?_⟩
  · intro h
    simp only [Context7Search.ensure_rag_ready]
    rw [if_pos h]
  · intro h
    simp only [Context7Search.ensure_rag_ready]
    split
    · exact h
    · simp
  · intro h
    simp only [GitHubReadmeFetcher.ensure_rag_ready]
    rw [if_pos h]
  · intro h
    simp only [GitHubReadmeFetcher.ensure_rag_ready]
    split
    · exact h
    · rfl
  · intro h
    simp only [KnowledgeBase.ensure_rag_ready]
    rw [if_pos (by simp [h])]
  · intro h
    simp only [KnowledgeBase.ensure_rag_ready]
    split
    · exact h
    · rfl

/-- Witness for C9: concrete calls with the flag set and clear, for all
three adapters, under the raising environment. -/
theorem single_flight_spec_witness :
    Context7Search.ensure_rag_ready envRaise "docs" "default"
        { Context7Search.mkState with building_index := fun _ => true }
      = ({ Context7Search.mkState with building_index := fun _ => true }, [], false)
    ∧ (Context7Search.ensure_rag_ready envRaise "docs" "default"
        Context7Search.mkState).1.building_index "default" = false
    ∧ GitHubReadmeFetcher.ensure_rag_ready envRaise "docs"
        { GitHubReadmeFetcher.mkState with building_index := true }
      = ({ GitHubReadmeFetcher.mkState with building_index := true }, [], false)
    ∧ (GitHubReadmeFetcher.ensure_rag_ready envRaise "docs"
        GitHubReadmeFetcher.mkState).1.building_index = false
    ∧ (KnowledgeBase.ensure_rag_ready envRaise sAppleKB).1.building_index = false :=
  ⟨(single_flight_spec envRaise "docs" "default"
      { Context7Search.mkState with building_index := fun _ => true }
      GitHubReadmeFetcher.mkState sAppleKB).1 rfl,
   (single_flight_spec envRaise "docs" "default" Context7Search.mkState
      GitHubReadmeFetcher.mkState sAppleKB).2.1 rfl,
   (single_flight_spec envRaise "docs" "default" Context7Search.mkState
      { GitHubReadmeFetcher.mkState with building_index := true } sAppleKB).2.2.1 rfl,
   (single_flight_spec envRaise "docs" "default" Context7Search.mkState
      GitHubReadmeFetcher.mkState sAppleKB).2.2.2.1 rfl,
   (single_flight_spec envRaise "docs" "default" Context7Search.mkState
      GitHubReadmeFetcher.mkState sAppleKB).2.2.2.2.2 rfl⟩

/-! ## Claim C8: fetch failure yields empty content, search yields empty
results -/

/-- **C8** — a transport failure (or unavailable client, both modelled by
`env.net … = none`) makes the remote adapters' fetch return the empty
string instead of raising, leaving the state unchanged; and a search
whose fetch produced no content returns an empty result list. -/
theorem fetch_failure_empty_spec (env : Env) (topic : Option String)
    (tokens max_results : Nat) (use_cache : Bool) (q : String)
    (s : Context7Search.State) (sg : GitHubReadmeFetcher.State) :
    (env.net (Context7Search.cache_key topic tokens) = none →
     (use_cache = false ∨ s.cache (Context7Search.cache_key topic tokens) = none) →
     Context7Search.fetch env topic tokens use_cache s
       = ("", s, [Event.netGet (Context7Search.cache_key topic tokens)])
     ∧ (Context7Search.search env q topic tokens max_results use_cache s).1 = .ok [])
    ∧ (env.net GitHubReadmeFetcher.GITHUB_README_URL = none →
       sg.cache = none →
       GitHubReadmeFetcher.fetch_readme env true sg
         = ("", sg, [Event.netGet GitHubReadmeFetcher.GITHUB_README_URL])
       ∧ (GitHubReadmeFetcher.search env q max_results sg).1 = .ok []) := by
  refine ⟨?_, ?_⟩
  · intro hnet hmiss
    have hcond : (use_cache && s.cache_enabled
        && (s.cache (Context7Search.cache_key topic tokens)).isSome) = false := by
      rcases hmiss with h | h
      · simp [h]
      · simp [h]
    have hf : Context7Search.fetch env topic tokens use_cache s
        = ("", s, [Event.netGet (Context7Search.cache_key topic tokens)]) := by
      simp only [Context7Search.fetch, hcond, Bool.false_eq_true, if_false]
      rw [hnet]
    refine ⟨hf, ?_⟩
    simp only [Context7Search.search]
    split
    · rfl
    · rw [hf]
      dsimp only
      rw [if_pos rfl]
  · intro hnet hc
    have hcond : (true && sg.cache_enabled && sg.cache.isSome) = false := by
      simp [hc]
    have hf : GitHubReadmeFetcher.fetch_readme env true sg
        = ("", sg, [Event.netGet GitHubReadmeFetcher.GITHUB_README_URL]) := by
      simp only [GitHubReadmeFetcher.fetch_readme, hcond, Bool.false_eq_true, if_false]
      rw [hnet]
    refine ⟨hf, ?_⟩
    simp only [GitHubReadmeFetcher.search]
    split
    · rfl
    · rw [hf]
      dsimp only
      rw [if_pos rfl]

/-- Witness for C8 under the always-failing network. -/
theorem fetch_failure_empty_spec_witness :
    (Context7Search.fetch trivEnv none 10000 true Context7Search.mkState
       = ("", Context7Search.mkState,
          [Event.netGet (Context7Search.cache_key none 10000)])
     ∧ (Context7Search.search trivEnv "jail rules" none 10000 5 true
          Context7Search.mkState).1 = .ok [])
    ∧ (GitHubReadmeFetcher.fetch_readme trivEnv true GitHubReadmeFetcher.mkState
       = ("", GitHubReadmeFetcher.mkState,
          [Event.netGet GitHubReadmeFetcher.GITHUB_README_URL])
     ∧ (GitHubReadmeFetcher.search trivEnv "jail rules" 5
          GitHubReadmeFetcher.mkState).1 = .ok []) :=
  ⟨(fetch_failure_empty_spec trivEnv none 10000 5 true "jail rules"
      Context7Search.mkState GitHubReadmeFetcher.mkState).1 rfl (Or.inr rfl),
   (fetch_failure_empty_spec trivEnv none 10000 5 true "jail rules"
      Context7Search.mkState GitHubReadmeFetcher.mkState).2 rfl rfl⟩

/-! ## Claim C10: remote keyword fallback returns at most one result -/

/-- The score of the remote keyword fallback: `+10` for a verbatim
substring match of the whole lowercased query, plus the non-overlapping
occurrence count of each whitespace-split term. -/
def kwSpecScore (query content : String) : Nat :=
  let query_lower := pyLower query
  let content_lower := pyLower content
  (if pyContains content_lower query_lower then 10 else 0)
  + ((pySplitWsS query_lower).map (fun term => pyCount content_lower term)).sum

/-- **C10** — the remote adapters' keyword fallback scores the whole
fetched document as a single candidate and ignores `max_results`: a zero
score yields an empty list, a positive score a one-element list whose
`full_content` is the document capped at 2000 characters.  The result
never has more than one element. -/
theorem remote_keyword_single_result_spec (q c : String) (m m' : Nat) :
    (Context7Search.search_keyword q c m).length ≤ 1
    ∧ (GitHubReadmeFetcher.search_keyword q c m).length ≤ 1
    ∧ Context7Search.search_keyword q c m = Context7Search.search_keyword q c m'
    ∧ GitHubReadmeFetcher.search_keyword q c m = GitHubReadmeFetcher.search_keyword q c m'
    ∧ (kwSpecScore q c = 0 →
        Context7Search.search_keyword q c m = []
        ∧ GitHubReadmeFetcher.search_keyword q c m = [])
    ∧ (0 < kwSpecScore q c →
        (∃ r, Context7Search.search_keyword q c m = [r]
           ∧ r.full_content = pyTake c 2000 ∧ r.score = (kwSpecScore q c : Rat))
        ∧ (∃ r, GitHubReadmeFetcher.search_keyword q c m = [r]
           ∧ r.full_content = pyTake c 2000 ∧ r.score = (kwSpecScore q c : Rat))) := by
  have hc7 : ∀ n : Nat, Context7Search.search_keyword q c n
      = if 0 < kwSpecScore q c then
          [{ path := "Context7", rtype := "documentation",
             snippet := extract_snippet c (pyLower q) 3,
             score := (kwSpecScore q c : Rat), full_content := pyTake c 2000,
             metadata := some { source := some "context7", topic := none,
                                mtype := none, path := none, document := none } }]
        else [] := fun n => rfl
  have hgh : ∀ n : Nat, GitHubReadmeFetcher.search_keyword q c n
      = if 0 < kwSpecScore q c then
          [{ path := "README.md", rtype := "readme",
             snippet := extract_snippet c (pyLower q) 3,
             score := (kwSpecScore q c : Rat), full_content := pyTake c 2000,
             metadata := some { source := some "github", topic := none,
                                mtype := none, path := none, document := none } }]
        else [] := fun n => rfl
  refine ⟨?_, ?_, ?_, ?_, ?_, ?_⟩
  · rw [hc7]
    split <;> simp
  · rw [hgh]
    split <;> simp
  · rw [hc7, hc7]
  · rw [hgh, hgh]
  · intro h0
    rw [hc7, hgh, if_neg (by omega), if_neg (by omega)]
    exact ⟨rfl, rfl⟩
  · intro hpos
    exact ⟨⟨_, (hc7 m).trans (if_pos hpos), rfl, rfl⟩,
           ⟨_, (hgh m).trans (if_pos hpos), rfl, rfl⟩⟩

/-- Witness for C10 at a concrete matching query. -/
theorem remote_keyword_single_result_spec_witness :
    (∃ r, Context7Search.search_keyword "jail" "the jail system" 5 = [r]
       ∧ r.full_content = pyTake "the jail system" 2000
       ∧ r.score = (kwSpecScore "jail" "the jail system" : Rat))
    ∧ (∃ r, GitHubReadmeFetcher.search_keyword "jail" "the jail system" 5 = [r]
       ∧ r.full_content = pyTake "the jail system" 2000
       ∧ r.score = (kwSpecScore "jail" "the jail system" : Rat)) :=
  (remote_keyword_single_result_spec "jail" "the jail system" 5 7).2.2.2.2.2
    (by decide)

/-! ## Claim C7: empty dense embeddings abort the build -/

/-- Hypothesis shape for C7: every embedding call succeeds but returns an
absent or empty `"dense"` entry. -/
def EmptyDenseEnv (env : Env) : Prop :=
  ∀ ts, ∃ e, env.encode_documents ts = some e ∧ e.dense.getD [] = []

/-- An empty-dense environment never raises from `encode_documents`. -/
theorem emptyDense_noraise {env : Env} (hEnc : EmptyDenseEnv env) :
    ∀ ts, env.encode_documents ts ≠ none := by
  intro ts h
  obtain ⟨e, he, _⟩ := hEnc ts
  rw [he] at h
  exact Option.noConfusion h

/-- Under empty dense embeddings, `Context7Search`'s build registers no
index and does not raise. -/
theorem c7_build_empty_dense (env : Env) (hEnc : EmptyDenseEnv env)
    (content topic_key : String) (s : Context7Search.State) :
    (Context7Search.build_rag_index env content topic_key s).1.rag_indices
      = s.rag_indices
    ∧ (Context7Search.build_rag_index env content topic_key s).2.2 = false := by
  simp only [Context7Search.build_rag_index]
  split
  · exact ⟨rfl, rfl⟩
  · split
    · exact ⟨rfl, rfl⟩
    · split
      · next heq => exact absurd heq (emptyDense_noraise hEnc _)
      · next e heq =>
        obtain ⟨e', he', hd'⟩ := hEnc _
        rw [heq] at he'
        injection he' with he2
        subst he2
        rw [if_pos hd']
        exact ⟨rfl, rfl⟩

/-- Under empty dense embeddings, `Context7Search`'s ensure leaves the
index map untouched and does not raise. -/
theorem c7_ensure_empty_dense (env : Env) (hEnc : EmptyDenseEnv env)
    (content topic_key : String) (s : Context7Search.State) :
    (Context7Search.ensure_rag_ready env content topic_key s).1.rag_indices
      = s.rag_indices
    ∧ (Context7Search.ensure_rag_ready env content topic_key s).2.2 = false := by
  simp only [Context7Search.ensure_rag_ready]
  split
  · exact ⟨rfl, rfl⟩
  · exact ⟨(c7_build_empty_dense env hEnc content topic_key _).1,
           (c7_build_empty_dense env hEnc content topic_key _).2⟩

/-- Under empty dense embeddings, `GitHubReadmeFetcher`'s build registers
no engine, leaves the ready flag unchanged, and does not raise. -/
theorem gh_build_empty_dense (env : Env) (hEnc : EmptyDenseEnv env)
    (content : String) (sg : GitHubReadmeFetcher.State) :
    (GitHubReadmeFetcher.build_rag_index env content sg).1.rag_ready = sg.rag_ready
    ∧ (GitHubReadmeFetcher.build_rag_index env content sg).1.search_engine
        = sg.search_engine
    ∧ (GitHubReadmeFetcher.build_rag_index env content sg).2.2 = false := by
  simp only [GitHubReadmeFetcher.build_rag_index]
  split
  · exact ⟨rfl, rfl, rfl⟩
  · split
    · exact ⟨rfl, rfl, rfl⟩
    · split
      · next heq => exact absurd heq (emptyDense_noraise hEnc _)
      · next e heq =>
        obtain ⟨e', he', hd'⟩ := hEnc _
        rw [heq] at he'
        injection he' with he2
        subst he2
        rw [if_pos hd']
        exact ⟨rfl, rfl, rfl⟩

/-- Under empty dense embeddings, `GitHubReadmeFetcher`'s ensure leaves
the ready flag unchanged and does not raise. -/
theorem gh_ensure_empty_dense (env : Env) (hEnc : EmptyDenseEnv env)
    (content : String) (sg : GitHubReadmeFetcher.State) :
    (GitHubReadmeFetcher.ensure_rag_ready env content sg).1.rag_ready = sg.rag_ready
    ∧ (GitHubReadmeFetcher.ensure_rag_ready env content sg).2.2 = false := by
  simp only [GitHubReadmeFetcher.ensure_rag_ready]
  split
  · exact ⟨rfl, rfl⟩
  · exact ⟨(gh_build_empty_dense env hEnc content _).1,
           (gh_build_empty_dense env hEnc content _).2.2⟩

/-- **C7** — for every adapter, a build that receives absent/empty dense
embeddings aborts: no index is registered, nothing raises, and the
adapter stays not-ready, so the next search returns the keyword fallback
instead of an error (proved for the remote-proxy, the remote-file and
the local-directory adapters).  For the knowledge base the abort
additionally and permanently sets `use_embeddings := false` (whenever
the chunking step produced any chunks at all), after which every search
takes the keyword path directly with a single `keywordScan` event and no
`buildRun`. -/
theorem empty_dense_abort_spec (env : Env) (hEnc : EmptyDenseEnv env) :
    (∀ content topic_key s7,
      (Context7Search.build_rag_index env content topic_key s7).1.rag_indices
        = s7.rag_indices
      ∧ (Context7Search.build_rag_index env content topic_key s7).2.2 = false)
    ∧ (∀ sKB : KnowledgeBase.State, sKB.rag_ready = false →
        (KnowledgeBase.build_rag_index env sKB).1.rag_ready = false
        ∧ (KnowledgeBase.build_rag_index env sKB).2.2 = false
        ∧ (KnowledgeBase.chunksOf env sKB ≠ [] →
            (KnowledgeBase.build_rag_index env sKB).1.use_embeddings = false))
    ∧ (∀ q topic tokens m c (s7 : Context7Search.State),
        s7.cache_enabled = true →
        s7.cache (Context7Search.cache_key topic tokens) = some c → c ≠ "" →
        s7.rag_indices (topic.getD "default") = none →
        ¬(q = "" ∨ pyLen (pyStripS q) < 2) →
        (Context7Search.search env q topic tokens m true s7).1
          = .ok (Context7Search.search_keyword q c m))
    ∧ (∀ q m (sKB : KnowledgeBase.State),
        sKB.use_embeddings = false → sKB.initialized = true → sKB.index ≠ [] →
        ¬(q = "" ∨ pyStripS q = "") →
        KnowledgeBase.search env q m sKB
          = (.ok (KnowledgeBase.search_keyword q m sKB), sKB,
             [Event.keywordScan "knowledge"]))
    ∧ (∀ content (sg : GitHubReadmeFetcher.State),
        (GitHubReadmeFetcher.build_rag_index env content sg).1.rag_ready
          = sg.rag_ready
        ∧ (GitHubReadmeFetcher.build_rag_index env content sg).1.search_engine
            = sg.search_engine
        ∧ (GitHubReadmeFetcher.build_rag_index env content sg).2.2 = false)
    ∧ (∀ q m c (sg : GitHubReadmeFetcher.State),
        sg.cache_enabled = true → sg.cache = some c → c ≠ "" →
        sg.rag_ready = false →
        ¬(q = "" ∨ pyStripS q = "") →
        (GitHubReadmeFetcher.search env q m sg).1
          = .ok (GitHubReadmeFetcher.search_keyword q c m)) := by
  refine ⟨fun content topic_key s7 => c7_build_empty_dense env hEnc content topic_key s7,
          ?_, ?_, ?_,
          fun content sg => gh_build_empty_dense env hEnc content sg, ?_⟩
  · intro sKB hr
    simp only [KnowledgeBase.build_rag_index]
    split
    · next hguard =>
      rw [hr] at hguard
      simp only [Bool.false_or] at hguard
      refine ⟨hr, rfl, fun _ => ?_⟩
      simpa using hguard
    · split
      · next hch =>
        exact ⟨hr, rfl, fun hne => absurd hch hne⟩
      · split
        · next heq => exact absurd heq (emptyDense_noraise hEnc _)
        · next e heq =>
          obtain ⟨e', he', hd'⟩ := hEnc _
          rw [heq] at he'
          injection he' with he2
          subst he2
          rw [if_pos hd']
          exact ⟨hr, rfl, fun _ => rfl⟩
  · intro q topic tokens m c s7 hen hc hcne hnone hguard
    simp only [Context7Search.search]
    rw [if_neg hguard]
    rw [c7_fetch_hit env topic tokens s7 c hen hc]
    dsimp only
    rw [if_neg hcne]
    rw [if_neg (by
      rw [(c7_ensure_empty_dense env hEnc c (topic.getD "default") s7).2]
      exact fun h => Bool.noConfusion h)]
    rw [if_pos (by
      rw [Context7Search.readyAt,
        (c7_ensure_empty_dense env hEnc c (topic.getD "default") s7).1, hnone])]
  · intro q m sKB hue hinit hidx hguard
    simp only [KnowledgeBase.search]
    rw [if_neg hguard]
    have hinitrun : KnowledgeBase.init env sKB = (sKB, [], false) := by
      simp only [KnowledgeBase.init, hinit, eq_self_iff_true, if_true]
    rw [hinitrun]
    dsimp only
    simp only [Bool.false_eq_true, if_false]
    rw [if_neg hidx]
    rw [if_pos (show (!sKB.use_embeddings) = true by rw [hue]; rfl)]
    simp
  · intro q m c sg hen hc hcne hnr hguard
    simp only [GitHubReadmeFetcher.search]
    rw [if_neg hguard]
    rw [gh_fetch_hit env sg c hen hc]
    dsimp only
    rw [if_neg hcne]
    rw [if_neg (by
      rw [gh_ensure_noraise env c sg (emptyDense_noraise hEnc)]
      exact fun h => Bool.noConfusion h)]
    rw [if_pos (by
      rw [(gh_ensure_empty_dense env hEnc c sg).1, hnr]
      rfl)]

/-- An environment whose embedding call succeeds but yields no dense
vectors. -/
def envEmptyDense : Env :=
  { net := fun _ => some "docs", files := [],
    chunk_document := fun content meta =>
      [{ text := content, chunk_id := "c1", fingerprint := none, meta := meta }],
    encode_documents := fun _ => some { dense := none, sparse := none },
    encode_queries := fun _ => { dense := none, sparse := none },
    enhance_query := fun q => [q],
    engine_search := fun _ _ _ _ _ _ => [] }

/-- A `Context7Search` state with `"docs"` cached for the default key and
no index. -/
def c7CachedState : Context7Search.State :=
  { cache := fun k =>
      if k = Context7Search.cache_key none 10000 then some "docs" else none,
    cache_enabled := true, rag_indices := fun _ => none,
    building_index := fun _ => false }

/-- The knowledge-base state `sAppleKB` with embeddings still enabled. -/
def sAppleKBe : KnowledgeBase.State := { sAppleKB with use_embeddings := true }

/-- A `GitHubReadmeFetcher` state with `"docs"` cached and no index. -/
def ghCachedState : GitHubReadmeFetcher.State :=
  { cache := some "docs", cache_enabled := true, rag_ready := false,
    building_index := false, chunks := [], search_engine := none }

/-- Witness for C7 at concrete empty-dense runs: no index registered, the
knowledge base disables embeddings, the next searches fall back to the
keyword scorers. -/
theorem empty_dense_abort_spec_witness :
    (Context7Search.build_rag_index envEmptyDense "docs" "default"
        Context7Search.mkState).1.rag_indices = Context7Search.mkState.rag_indices
    ∧ (KnowledgeBase.build_rag_index envEmptyDense sAppleKBe).1.use_embeddings = false
    ∧ (Context7Search.search envEmptyDense "bail rules" none 10000 5 true
        c7CachedState).1 = .ok (Context7Search.search_keyword "bail rules" "docs" 5)
    ∧ KnowledgeBase.search envEmptyDense "apple" 5 sAppleKB
        = (.ok (KnowledgeBase.search_keyword "apple" 5 sAppleKB), sAppleKB,
           [Event.keywordScan "knowledge"])
    ∧ (GitHubReadmeFetcher.build_rag_index envEmptyDense "docs"
        GitHubReadmeFetcher.mkState).1.rag_ready
        = GitHubReadmeFetcher.mkState.rag_ready
    ∧ (GitHubReadmeFetcher.search envEmptyDense "bail rules" 5 ghCachedState).1
        = .ok (GitHubReadmeFetcher.search_keyword "bail rules" "docs" 5) :=
  have hEnc : EmptyDenseEnv envEmptyDense :=
    fun ts => ⟨{ dense := none, sparse := none }, rfl, rfl⟩
  ⟨(empty_dense_abort_spec envEmptyDense hEnc).1 "docs" "default"
      Context7Search.mkState |>.1,
   ((empty_dense_abort_spec envEmptyDense hEnc).2.1 sAppleKBe rfl).2.2 (by decide),
   (empty_dense_abort_spec envEmptyDense hEnc).2.2.1 "bail rules" none 10000 5 "docs"
      c7CachedState (by decide) (by decide) (by decide) (by decide) (by decide),
   (empty_dense_abort_spec envEmptyDense hEnc).2.2.2.1 "apple" 5 sAppleKB rfl rfl
      (by decide) (by decide),
   ((empty_dense_abort_spec envEmptyDense hEnc).2.2.2.2.1 "docs"
      GitHubReadmeFetcher.mkState).1,
   (empty_dense_abort_spec envEmptyDense hEnc).2.2.2.2.2 "bail rules" 5 "docs"
      ghCachedState rfl rfl (by decide) rfl (by decide)⟩

/-! ## Claim C6: directory-adapter keyword scoring -/

/-- The claim's scoring formula for the directory adapter
(case-insensitive): 10 for a verbatim full-query substring match, one
point per (non-overlapping) occurrence of each whitespace-split term, 5
when some term occurs in the document's path, and 3 per markdown heading
line containing a term among the document's first twenty lines. -/
def kbScoreSpec (query : String) (doc : Doc) : Nat :=
  (if pyContains (pyLower doc.content) (pyLower query) then 10 else 0)
  + ((pySplitWsS (pyLower query)).map
      (fun term => pyCount (pyLower doc.content) term)).sum
  + (if (pySplitWsS (pyLower query)).any
        (fun term => pyContains (pyLower doc.path) term) then 5 else 0)
  + 3 * ((pySplitNlS doc.content).take 20).countP
      (fun line => startsWithHash (pyStripS line)
        && (pySplitWsS (pyLower query)).any
            (fun term => pyContains (pyLower line) term))

/-- The heading-bonus fold adds three points per matching line. -/
theorem foldl_heading_bonus (p : String → Bool) :
    ∀ (L : List String) (n : Nat),
      L.foldl (fun acc line => if p line then acc + 3 else acc) n
        = n + 3 * L.countP p := by
  intro L
  induction L with
  | nil => intro n; simp
  | cons x t ih =>
    intro n
    simp only [List.foldl_cons, List.countP_cons]
    by_cases h : p x
    · rw [if_pos h, ih]
      simp only [h, if_pos]
      omega
    · rw [if_neg h, ih]
      simp only [h, Bool.false_eq_true, if_false]
      omega

/-- Membership in the scored-results fold of `_search_keyword`. -/
theorem mem_foldl_scored (score : Doc → Nat) (ent : Doc → SResult) :
    ∀ (l : List Doc) (acc : List SResult) (r : SResult),
      r ∈ l.foldl
        (fun acc doc => if 0 < score doc then acc ++ [ent doc] else acc) acc
      ↔ r ∈ acc ∨ ∃ doc ∈ l, 0 < score doc ∧ r = ent doc := by
  intro l
  induction l with
  | nil => intro acc r; simp
  | cons d t ih =>
    intro acc r
    simp only [List.foldl_cons]
    rw [ih]
    by_cases h : 0 < score d
    · rw [if_pos h]
      constructor
      · rintro (hmem | ⟨doc, hd, hs, hr⟩)
        · rcases List.mem_append.1 hmem with h1 | h1
          · exact Or.inl h1
          · exact Or.inr ⟨d, List.mem_cons_self _ _, h, List.mem_singleton.1 h1⟩
        · exact Or.inr ⟨doc, List.mem_cons_of_mem _ hd, hs, hr⟩
      · rintro (h1 | ⟨doc, hd, hs, hr⟩)
        · exact Or.inl (List.mem_append_left _ h1)
        · rcases List.mem_cons.1 hd with rfl | hdt
          · exact Or.inl (List.mem_append_right _ (by simp [hr]))
          · exact Or.inr ⟨doc, hdt, hs, hr⟩
    · rw [if_neg h]
      constructor
      · rintro (h1 | ⟨doc, hd, hs, hr⟩)
        · exact Or.inl h1
        · exact Or.inr ⟨doc, List.mem_cons_of_mem _ hd, hs, hr⟩
      · rintro (h1 | ⟨doc, hd, hs, hr⟩)
        · exact Or.inl h1
        · rcases List.mem_cons.1 hd with rfl | hdt
          · exact absurd hs h
          · exact Or.inr ⟨doc, hdt, hs, hr⟩

/-- The inline score computed by `_search_keyword` equals the claim's
formula. -/
theorem kb_keyword_score_spec (q : String) (doc : Doc) :
    KnowledgeBase.keyword_score (pyLower q) (pySplitWsS (pyLower q)) doc
      = kbScoreSpec q doc := by
  simp only [KnowledgeBase.keyword_score, kbScoreSpec]
  rw [foldl_heading_bonus]
  by_cases h : (pySplitWsS (pyLower q)).any
      (fun term => pyContains (pyLower doc.path) term)
  · rw [if_pos h, if_pos h]
  · rw [if_neg h, if_neg h]
    omega

/-- An initialized knowledge base holding the parole document of the
spec's scenario, with embeddings disabled. -/
def sParoleKB : KnowledgeBase.State :=
  { use_embeddings := false,
    index := [{ path := "parole_guide.md",
                content := "Parole is supervision after release.",
                dtype := "markdown" }],
    initialized := true, rag_ready := false, building_index := false,
    chunks := [], search_engine := none }

/-- **C6** — the directory adapter's keyword fallback scores each
document by the claim's formula (10 for a verbatim substring match of
the full lowercased query, one per term occurrence, 5 for a term in the
path, 3 per matching heading among the first twenty lines); zero-scoring
documents are excluded, results are sorted by score descending and
truncated to `max_results`; and the parole scenario returns the document
with score `16 ≥ 10` and a snippet equal to the matched line. -/
theorem knowledge_keyword_spec :
    (∀ q doc, KnowledgeBase.keyword_score (pyLower q) (pySplitWsS (pyLower q)) doc
        = kbScoreSpec q doc)
    ∧ (∀ q m (s : KnowledgeBase.State) r,
        r ∈ KnowledgeBase.search_keyword q m s →
        ∃ doc ∈ s.index, 0 < kbScoreSpec q doc
          ∧ r = KnowledgeBase.keyword_entry (pyLower q) doc (kbScoreSpec q doc))
    ∧ (∀ q m (s : KnowledgeBase.State),
        (KnowledgeBase.search_keyword q m s).length ≤ m
        ∧ (KnowledgeBase.search_keyword q m s).Pairwise
            (fun a b => b.score ≤ a.score))
    ∧ ((KnowledgeBase.search trivEnv "parole" 5 sParoleKB).1.toOption
        = some [{ path := "parole_guide.md", rtype := "markdown",
                  snippet := "Parole is supervision after release.",
                  score := (16 : Rat),
                  full_content := "Parole is supervision after release.",
                  metadata := none }]
       ∧ (10 : Rat) ≤ (16 : Rat)) := by
  refine ⟨kb_keyword_score_spec, ?_, ?_, by decide, by decide⟩
  · intro q m s r hr
    simp only [KnowledgeBase.search_keyword] at hr
    have hr2 := (mem_sortScoreDesc (fun r : SResult => r.score) _ r).1
      (List.mem_of_mem_take hr)
    rcases (mem_foldl_scored
        (fun doc => KnowledgeBase.keyword_score (pyLower q) (pySplitWsS (pyLower q)) doc)
        (fun doc => KnowledgeBase.keyword_entry (pyLower q) doc
          (KnowledgeBase.keyword_score (pyLower q) (pySplitWsS (pyLower q)) doc))
        s.index [] r).1 hr2 with h0 | ⟨doc, hd, hs, hrr⟩
    · simp at h0
    · refine ⟨doc, hd, ?_, ?_⟩
      · rw [← kb_keyword_score_spec]
        exact hs
      · rw [hrr, kb_keyword_score_spec]
  · intro q m s
    constructor
    · simp only [KnowledgeBase.search_keyword]
      exact List.length_take_le m _
    · simp only [KnowledgeBase.search_keyword]
      exact ((sortScoreDesc_pairwise (fun r : SResult => r.score) _).sublist
        (List.take_sublist m _))

/-- Witness for C6: the parole result arises from the parole document
with the claimed score. -/
theorem knowledge_keyword_spec_witness :
    ∃ doc ∈ sParoleKB.index, 0 < kbScoreSpec "parole" doc
      ∧ ({ path := "parole_guide.md", rtype := "markdown",
           snippet := "Parole is supervision after release.",
           score := (16 : Rat),
           full_content := "Parole is supervision after release.",
           metadata := none } : SResult)
        = KnowledgeBase.keyword_entry (pyLower "parole") doc
            (kbScoreSpec "parole" doc) :=
  knowledge_keyword_spec.2.1 "parole" 5 sParoleKB _ (by decide)
